import Mathlib

/-!
Verification of the boid simulation (`src/main.c`) against its natural-language
specification.  The C program is shallowly embedded: `float` arithmetic is
idealized as real arithmetic, C arrays become functions out of `ℕ`, and each
in-place system becomes a function from state to state (a left fold over the
entity index range, mirroring the C loops).  Grid cell indices are `ℤ`, and the
C cast `(int)` of a float is truncation toward zero (`cTrunc`).
-/

namespace Boid

noncomputable section

/-- A 2D vector (raylib `Vector2`), with `float` idealized as `ℝ`. -/
@[ext]
structure Vec2 where
  x : ℝ
  y : ℝ

/-- An RGBA color (raylib `Color`); opaque to the simulation logic. -/
structure Color where
  r : ℕ
  g : ℕ
  b : ℕ
  a : ℕ

/-- raymath `Vector2Add`. -/
def Vector2Add (v1 v2 : Vec2) : Vec2 := ⟨v1.x + v2.x, v1.y + v2.y⟩

/-- raymath `Vector2Subtract`. -/
def Vector2Subtract (v1 v2 : Vec2) : Vec2 := ⟨v1.x - v2.x, v1.y - v2.y⟩

/-- raymath `Vector2Length`: `sqrtf(v.x*v.x + v.y*v.y)`. -/
def Vector2Length (v : Vec2) : ℝ := Real.sqrt (v.x * v.x + v.y * v.y)

/-- raymath `Vector2Distance`: `sqrtf((v1.x-v2.x)² + (v1.y-v2.y)²)`. -/
def Vector2Distance (v1 v2 : Vec2) : ℝ :=
  Real.sqrt ((v1.x - v2.x) * (v1.x - v2.x) + (v1.y - v2.y) * (v1.y - v2.y))

/-- `main.c` lines 153-162: clamp a vector's magnitude to `max`. -/
def Vector2Limit (v : Vec2) (max : ℝ) : Vec2 :=
  let magSq := v.x * v.x + v.y * v.y
  if magSq > max * max then
    let mag := Real.sqrt magSq
    ⟨v.x / mag * max, v.y / mag * max⟩
  else v

/-- `main.c` lines 164-172: rescale a vector to magnitude `mag`
(zero vectors are returned unchanged). -/
def Vector2SetMag (v : Vec2) (mag : ℝ) : Vec2 :=
  let currentMag := Real.sqrt (v.x * v.x + v.y * v.y)
  if currentMag > 0 then
    ⟨v.x / currentMag * mag, v.y / currentMag * mag⟩
  else v

/-- The C cast `(int)` applied to a float: truncation toward zero. -/
def cTrunc (x : ℝ) : ℤ := if 0 ≤ x then ⌊x⌋ else ⌈x⌉

/-- `#define SCREEN_WIDTH 2560`. -/
def SCREEN_WIDTH : ℤ := 2560

/-- `#define SCREEN_HEIGHT 1440`. -/
def SCREEN_HEIGHT : ℤ := 1440

/-- `#define CELL_SIZE 50`. -/
def CELL_SIZE : ℤ := 50

/-- `#define GRID_WIDTH (SCREEN_WIDTH / CELL_SIZE + 1)` (= 52, by C integer division). -/
def GRID_WIDTH : ℤ := SCREEN_WIDTH / CELL_SIZE + 1

/-- `#define GRID_HEIGHT (SCREEN_HEIGHT / CELL_SIZE + 1)` (= 29). -/
def GRID_HEIGHT : ℤ := SCREEN_HEIGHT / CELL_SIZE + 1

/-- `#define MAX_ENTITIES_PER_CELL 100`. -/
def MAX_ENTITIES_PER_CELL : ℕ := 100

/-- `#define MAX_ENTITIES 8000`. -/
def MAX_ENTITIES : ℕ := 8000

/-- The spatial grid: each cell holds the list of stored entity ids (the first
`count` entries of the C `entities` array, in insertion order). -/
abbrev SpatialGrid := ℤ × ℤ → List ℕ

/-- `ClearSpatialGrid` (`main.c` lines 42-45): `memset` to zero empties every cell. -/
def ClearSpatialGrid (_grid : SpatialGrid) : SpatialGrid := fun _ => []

/-- The two sequential clamping `if`s of `AddToSpatialGrid` (`main.c` lines 53-56),
for one axis: clamp `g` into `[0, dim-1]`. -/
def clampIdx (g dim : ℤ) : ℤ :=
  let g1 := if g < 0 then 0 else g
  if dim ≤ g1 then dim - 1 else g1

/-- The cell an entity at `pos` is filed under (`main.c` lines 49-56):
truncated division by `CELL_SIZE` on each axis, then clamping to the grid bounds. -/
def entityCell (pos : Vec2) : ℤ × ℤ :=
  (clampIdx (cTrunc (pos.x / (CELL_SIZE : ℝ))) GRID_WIDTH,
   clampIdx (cTrunc (pos.y / (CELL_SIZE : ℝ))) GRID_HEIGHT)

/-- `AddToSpatialGrid` (`main.c` lines 47-63): append `entityId` to the clamped
cell of `pos`, unless that cell already holds `MAX_ENTITIES_PER_CELL` ids. -/
def AddToSpatialGrid (grid : SpatialGrid) (entityId : ℕ) (pos : Vec2) : SpatialGrid :=
  let c := entityCell pos
  if (grid c).length < MAX_ENTITIES_PER_CELL then
    Function.update grid c (grid c ++ [entityId])
  else grid

/-- `minX` of `QuerySpatialGrid` (`main.c` lines 71, 77): truncated cell index of
`pos.x - radius`, clamped below by 0 (there is no upper clamp on `minX`). -/
def qMinX (pos : Vec2) (radius : ℝ) : ℤ :=
  let m := cTrunc ((pos.x - radius) / (CELL_SIZE : ℝ))
  if m < 0 then 0 else m

/-- `maxX` of `QuerySpatialGrid` (`main.c` lines 72, 78): truncated cell index of
`pos.x + radius`, clamped above by `GRID_WIDTH - 1` (no lower clamp on `maxX`). -/
def qMaxX (pos : Vec2) (radius : ℝ) : ℤ :=
  let m := cTrunc ((pos.x + radius) / (CELL_SIZE : ℝ))
  if GRID_WIDTH ≤ m then GRID_WIDTH - 1 else m

/-- `minY` of `QuerySpatialGrid` (`main.c` lines 73, 79). -/
def qMinY (pos : Vec2) (radius : ℝ) : ℤ :=
  let m := cTrunc ((pos.y - radius) / (CELL_SIZE : ℝ))
  if m < 0 then 0 else m

/-- `maxY` of `QuerySpatialGrid` (`main.c` lines 74, 80). -/
def qMaxY (pos : Vec2) (radius : ℝ) : ℤ :=
  let m := cTrunc ((pos.y + radius) / (CELL_SIZE : ℝ))
  if GRID_HEIGHT ≤ m then GRID_HEIGHT - 1 else m

/-- The inclusive integer range `[a, b]` as a list (empty when `b < a`);
the iteration space of the C `for` loops over cell indices. -/
def intRange (a b : ℤ) : List ℤ :=
  (List.range (b + 1 - a).toNat).map (fun k : ℕ => a + (k : ℤ))

/-- `QuerySpatialGrid` (`main.c` lines 66-97): walk the clamped cell rectangle in
row-major order (y outer, x inner) and collect ids, dropping ids once
`maxResults` entries have been collected.  The C out-parameters
`(outEntities, outCount)` are modelled as the returned list. -/
def QuerySpatialGrid (grid : SpatialGrid) (pos : Vec2) (radius : ℝ)
    (maxResults : ℕ) : List ℕ :=
  (intRange (qMinY pos radius) (qMaxY pos radius)).foldl (fun out y =>
    (intRange (qMinX pos radius) (qMaxX pos radius)).foldl (fun out x =>
      (grid (x, y)).foldl (fun out e =>
        if out.length < maxResults then out ++ [e] else out) out) out) []

/-- The list of cells visited by `QuerySpatialGrid`, in visit order
(specification helper used to state capacity/buffer hypotheses). -/
def queryCellRange (pos : Vec2) (radius : ℝ) : List (ℤ × ℤ) :=
  (intRange (qMinY pos radius) (qMaxY pos radius)).flatMap (fun y =>
    (intRange (qMinX pos radius) (qMaxX pos radius)).map (fun x => (x, y)))

/-- Every id `QuerySpatialGrid` would visit, before the `maxResults` cutoff
(specification helper: the query returns a prefix of this list). -/
def queryFlatten (grid : SpatialGrid) (pos : Vec2) (radius : ℝ) : List ℕ :=
  ((queryCellRange pos radius).map grid).flatten

/-- The mutable globals of `main.c` lines 103-111 (`entities`, `positions`,
`velocities`, `accelerations`, `colors`, `entityCount`), as one record.
C arrays of length `MAX_ENTITIES` become total functions out of `ℕ`. -/
structure GameState where
  entities : ℕ → Bool
  positions : ℕ → Vec2
  velocities : ℕ → Vec2
  accelerations : ℕ → Vec2
  colors : ℕ → Color
  entityCount : ℕ

/-- `CreateEntity` (`main.c` lines 178-191): at capacity return `-1` and leave
the state alone; otherwise append an active agent at id `entityCount` with the
given position, velocity and color, zero acceleration, and bump the count. -/
def CreateEntity (s : GameState) (position velocity : Vec2) (color : Color) :
    ℤ × GameState :=
  if MAX_ENTITIES ≤ s.entityCount then (-1, s)
  else
    ((s.entityCount : ℤ),
      { entities := Function.update s.entities s.entityCount true
        positions := Function.update s.positions s.entityCount position
        velocities := Function.update s.velocities s.entityCount velocity
        accelerations := Function.update s.accelerations s.entityCount ⟨0, 0⟩
        colors := Function.update s.colors s.entityCount color
        entityCount := s.entityCount + 1 })

/-- `BoidParams` (`main.c` lines 117-126). -/
structure BoidParams where
  perceptionRadius : ℝ
  separationRadius : ℝ
  maxSpeed : ℝ
  maxForce : ℝ
  separationWeight : ℝ
  alignmentWeight : ℝ
  cohesionWeight : ℝ

/-- The default `boidParams` initializer (`main.c` lines 128-136). -/
def boidParams : BoidParams :=
  { perceptionRadius := 20
    separationRadius := 10
    maxSpeed := 5
    maxForce := 0.7
    separationWeight := 3
    alignmentWeight := 1
    cohesionWeight := 0.5 }

/-- `SpatialGridUpdateSystem` (`main.c` lines 214-223): clear the grid, then
insert every active entity `i < count` at its position, in index order. -/
def SpatialGridUpdateSystem (pos : ℕ → Vec2) (ent : ℕ → Bool) (count : ℕ) :
    SpatialGrid :=
  (List.range count).foldl
    (fun g i => if ent i then AddToSpatialGrid g i (pos i) else g)
    (fun _ => [])

/-- One step of the neighbor scan of `BoidSeparationSystem`
(`main.c` lines 245-261): skip self and inactive ids; for a neighbor strictly
inside the separation radius and at a strictly positive distance, accumulate
the unit vector from the neighbor toward `i` and bump `total`. -/
def sepStep (pos : ℕ → Vec2) (ent : ℕ → Bool) (sepRadius : ℝ) (i : ℕ)
    (st : Vec2 × ℕ) (j : ℕ) : Vec2 × ℕ :=
  if i = j ∨ ent j = false then st
  else
    let dist := Vector2Distance (pos i) (pos j)
    if dist < sepRadius ∧ dist > 0 then
      (Vector2Add st.1
        ⟨(Vector2Subtract (pos i) (pos j)).x / dist,
         (Vector2Subtract (pos i) (pos j)).y / dist⟩,
       st.2 + 1)
    else st

/-- The per-agent body of `BoidSeparationSystem` (`main.c` lines 238-276):
query the grid, scan the candidates, and if any neighbor qualified, average,
set magnitude to max speed, subtract own velocity, clamp to max force, scale by
the separation weight, and add into the agent's acceleration. -/
def sepBody (grid : SpatialGrid) (pos vel : ℕ → Vec2) (ent : ℕ → Bool)
    (params : BoidParams) (i : ℕ) (accI : Vec2) : Vec2 :=
  let nearby := QuerySpatialGrid grid (pos i) params.separationRadius
    (MAX_ENTITIES_PER_CELL * 9)
  let r := nearby.foldl (sepStep pos ent params.separationRadius i) (⟨0, 0⟩, 0)
  if 0 < r.2 then
    let s1 : Vec2 := ⟨r.1.x / (r.2 : ℝ), r.1.y / (r.2 : ℝ)⟩
    let s2 := Vector2SetMag s1 params.maxSpeed
    let s3 := Vector2Subtract s2 (vel i)
    let s4 := Vector2Limit s3 params.maxForce
    Vector2Add accI ⟨s4.x * params.separationWeight, s4.y * params.separationWeight⟩
  else accI

/-- `BoidSeparationSystem` (`main.c` lines 229-278): for each active agent in
index order, rewrite its acceleration slot by `sepBody`. -/
def BoidSeparationSystem (grid : SpatialGrid) (pos vel : ℕ → Vec2)
    (acc : ℕ → Vec2) (ent : ℕ → Bool) (count : ℕ) (params : BoidParams) :
    ℕ → Vec2 :=
  (List.range count).foldl
    (fun a i =>
      if ent i then Function.update a i (sepBody grid pos vel ent params i (a i))
      else a)
    acc

/-- One step of the neighbor scan of `BoidAlignmentSystem`
(`main.c` lines 294-306): accumulate the velocity of each distinct active
neighbor strictly inside the perception radius. -/
def alignStep (pos vel : ℕ → Vec2) (ent : ℕ → Bool) (perception : ℝ) (i : ℕ)
    (st : Vec2 × ℕ) (j : ℕ) : Vec2 × ℕ :=
  if i = j ∨ ent j = false then st
  else
    let dist := Vector2Distance (pos i) (pos j)
    if dist < perception then (Vector2Add st.1 (vel j), st.2 + 1) else st

/-- The per-agent body of `BoidAlignmentSystem` (`main.c` lines 289-321). -/
def alignBody (grid : SpatialGrid) (pos vel : ℕ → Vec2) (ent : ℕ → Bool)
    (params : BoidParams) (i : ℕ) (accI : Vec2) : Vec2 :=
  let nearby := QuerySpatialGrid grid (pos i) params.perceptionRadius
    (MAX_ENTITIES_PER_CELL * 9)
  let r := nearby.foldl (alignStep pos vel ent params.perceptionRadius i) (⟨0, 0⟩, 0)
  if 0 < r.2 then
    let s1 : Vec2 := ⟨r.1.x / (r.2 : ℝ), r.1.y / (r.2 : ℝ)⟩
    let s2 := Vector2SetMag s1 params.maxSpeed
    let s3 := Vector2Subtract s2 (vel i)
    let s4 := Vector2Limit s3 params.maxForce
    Vector2Add accI ⟨s4.x * params.alignmentWeight, s4.y * params.alignmentWeight⟩
  else accI

/-- `BoidAlignmentSystem` (`main.c` lines 280-323). -/
def BoidAlignmentSystem (grid : SpatialGrid) (pos vel : ℕ → Vec2)
    (acc : ℕ → Vec2) (ent : ℕ → Bool) (count : ℕ) (params : BoidParams) :
    ℕ → Vec2 :=
  (List.range count).foldl
    (fun a i =>
      if ent i then Function.update a i (alignBody grid pos vel ent params i (a i))
      else a)
    acc

/-- One step of the neighbor scan of `BoidCohesionSystem`
(`main.c` lines 339-351): accumulate the position of each distinct active
neighbor strictly inside the perception radius. -/
def cohStep (pos : ℕ → Vec2) (ent : ℕ → Bool) (perception : ℝ) (i : ℕ)
    (st : Vec2 × ℕ) (j : ℕ) : Vec2 × ℕ :=
  if i = j ∨ ent j = false then st
  else
    let dist := Vector2Distance (pos i) (pos j)
    if dist < perception then (Vector2Add st.1 (pos j), st.2 + 1) else st

/-- The per-agent body of `BoidCohesionSystem` (`main.c` lines 334-367): like
the others but the averaged position is first turned into an offset from the
agent (subtract own position) before the set-magnitude/steer/clamp sequence. -/
def cohBody (grid : SpatialGrid) (pos vel : ℕ → Vec2) (ent : ℕ → Bool)
    (params : BoidParams) (i : ℕ) (accI : Vec2) : Vec2 :=
  let nearby := QuerySpatialGrid grid (pos i) params.perceptionRadius
    (MAX_ENTITIES_PER_CELL * 9)
  let r := nearby.foldl (cohStep pos ent params.perceptionRadius i) (⟨0, 0⟩, 0)
  if 0 < r.2 then
    let s1 : Vec2 := ⟨r.1.x / (r.2 : ℝ), r.1.y / (r.2 : ℝ)⟩
    let s1b := Vector2Subtract s1 (pos i)
    let s2 := Vector2SetMag s1b params.maxSpeed
    let s3 := Vector2Subtract s2 (vel i)
    let s4 := Vector2Limit s3 params.maxForce
    Vector2Add accI ⟨s4.x * params.cohesionWeight, s4.y * params.cohesionWeight⟩
  else accI

/-- `BoidCohesionSystem` (`main.c` lines 325-369). -/
def BoidCohesionSystem (grid : SpatialGrid) (pos vel : ℕ → Vec2)
    (acc : ℕ → Vec2) (ent : ℕ → Bool) (count : ℕ) (params : BoidParams) :
    ℕ → Vec2 :=
  (List.range count).foldl
    (fun a i =>
      if ent i then Function.update a i (cohBody grid pos vel ent params i (a i))
      else a)
    acc

/-- `AccelerationResetSystem` (`main.c` lines 375-382): zero every active
agent's acceleration. -/
def AccelerationResetSystem (acc : ℕ → Vec2) (ent : ℕ → Bool) (count : ℕ) :
    ℕ → Vec2 :=
  (List.range count).foldl
    (fun a i => if ent i then Function.update a i ⟨0, 0⟩ else a)
    acc

/-- `PhysicsSystem` (`main.c` lines 384-394): per active agent,
`vel += acc`, clamp `vel` to `maxSpeed`, `pos += vel` (with the freshly
clamped velocity).  Returns the new `(positions, velocities)` pair. -/
def PhysicsSystem (pos vel acc : ℕ → Vec2) (ent : ℕ → Bool) (count : ℕ)
    (maxSpeed : ℝ) : (ℕ → Vec2) × (ℕ → Vec2) :=
  (List.range count).foldl
    (fun pv i =>
      if ent i then
        let v := Vector2Limit (Vector2Add (pv.2 i) (acc i)) maxSpeed
        (Function.update pv.1 i (Vector2Add (pv.1 i) v), Function.update pv.2 i v)
      else pv)
    (pos, vel)

/-- The per-position body of `WrapAroundSystem` (`main.c` lines 402-405): the
four sequential `if`s, per axis (note every comparison is strict). -/
def wrapVec (p : Vec2) (width height : ℝ) : Vec2 :=
  let x1 := if p.x < 0 then width else p.x
  let x2 := if x1 > width then 0 else x1
  let y1 := if p.y < 0 then height else p.y
  let y2 := if y1 > height then 0 else y1
  ⟨x2, y2⟩

/-- `WrapAroundSystem` (`main.c` lines 396-407). -/
def WrapAroundSystem (pos : ℕ → Vec2) (ent : ℕ → Bool) (count : ℕ)
    (width height : ℝ) : ℕ → Vec2 :=
  (List.range count).foldl
    (fun a i => if ent i then Function.update a i (wrapVec (a i) width height) else a)
    pos

/-- The per-tick force phase in the order of `main` (`main.c` lines 458-460):
separation, then alignment, then cohesion, all over the same grid, positions
and velocities. -/
def forcePhase (grid : SpatialGrid) (pos vel : ℕ → Vec2) (ent : ℕ → Bool)
    (count : ℕ) (params : BoidParams) (acc : ℕ → Vec2) : ℕ → Vec2 :=
  BoidCohesionSystem grid pos vel
    (BoidAlignmentSystem grid pos vel
      (BoidSeparationSystem grid pos vel acc ent count params)
      ent count params)
    ent count params

/-- A tag naming one of the three force systems (0 = separation,
1 = alignment, 2 = cohesion). -/
inductive ForceSys where
  | sep : ForceSys
  | ali : ForceSys
  | coh : ForceSys
deriving DecidableEq

/-- Run the force system named by a tag. -/
def runForceSys (grid : SpatialGrid) (pos vel : ℕ → Vec2) (ent : ℕ → Bool)
    (count : ℕ) (params : BoidParams) : ForceSys → (ℕ → Vec2) → ℕ → Vec2
  | ForceSys.sep, acc => BoidSeparationSystem grid pos vel acc ent count params
  | ForceSys.ali, acc => BoidAlignmentSystem grid pos vel acc ent count params
  | ForceSys.coh, acc => BoidCohesionSystem grid pos vel acc ent count params

/-- Run a list of force systems left to right. -/
def runForceList (grid : SpatialGrid) (pos vel : ℕ → Vec2) (ent : ℕ → Bool)
    (count : ℕ) (params : BoidParams) : List ForceSys → (ℕ → Vec2) → ℕ → Vec2
  | [], acc => acc
  | t :: ts, acc =>
      runForceList grid pos vel ent count params ts
        (runForceSys grid pos vel ent count params t acc)

/-- The per-agent body of the force system named by a tag. -/
def sysBodyOf (grid : SpatialGrid) (pos vel : ℕ → Vec2) (ent : ℕ → Bool)
    (params : BoidParams) : ForceSys → ℕ → Vec2 → Vec2
  | ForceSys.sep => sepBody grid pos vel ent params
  | ForceSys.ali => alignBody grid pos vel ent params
  | ForceSys.coh => cohBody grid pos vel ent params

/-- Sum of a list of vectors (helper for the order-independence argument). -/
def vecSum : List Vec2 → Vec2
  | [] => ⟨0, 0⟩
  | v :: t => Vector2Add v (vecSum t)

/-- Test fixture: every agent active. -/
def allActive : ℕ → Bool := fun _ => true

/-- Test fixture: every agent at rest. -/
def zeroVel : ℕ → Vec2 := fun _ => ⟨0, 0⟩

/-- Test fixture: two agents one unit apart, at `(100,100)` and `(101,100)`. -/
def pairPos : ℕ → Vec2 :=
  fun i => if i = 0 then ⟨100, 100⟩ else if i = 1 then ⟨101, 100⟩ else ⟨0, 0⟩

/-- Test fixture: the grid built from the two-agent state. -/
def pairGrid : SpatialGrid := SpatialGridUpdateSystem pairPos allActive 2

/-- Test fixture: a single agent at `(100,100)`. -/
def onePos : ℕ → Vec2 := fun _ => ⟨100, 100⟩

/-- Test fixture: the grid built from the one-agent state. -/
def oneGrid : SpatialGrid := SpatialGridUpdateSystem onePos allActive 1

/-- Test fixture: a single agent at `(-100, 0)`, off the world rectangle. -/
def offPos : ℕ → Vec2 := fun _ => ⟨-100, 0⟩

/-- Test fixture: the grid built from the off-world agent. -/
def offGrid : SpatialGrid := SpatialGridUpdateSystem offPos allActive 1

/-- Test fixture: a grid whose cell `(2,2)` is filled to capacity with id 7. -/
def fullCellGrid : SpatialGrid :=
  fun c => if c = ((2 : ℤ), (2 : ℤ)) then List.replicate 100 7 else []

/-- Test fixture: the empty agent store. -/
def emptyState : GameState :=
  { entities := fun _ => false
    positions := fun _ => ⟨0, 0⟩
    velocities := fun _ => ⟨0, 0⟩
    accelerations := fun _ => ⟨0, 0⟩
    colors := fun _ => ⟨0, 0, 0, 0⟩
    entityCount := 0 }

/-- Test fixture: an agent store at capacity. -/
def fullState : GameState :=
  { entities := fun _ => true
    positions := fun _ => ⟨1, 2⟩
    velocities := fun _ => ⟨3, 4⟩
    accelerations := fun _ => ⟨0, 0⟩
    colors := fun _ => ⟨9, 9, 9, 9⟩
    entityCount := 8000 }

end

/-! ## General helper lemmas -/

theorem Vector2Add_zero (v : Vec2) : Vector2Add v ⟨0, 0⟩ = v := by
  simp [Vector2Add]

theorem zero_Vector2Add (v : Vec2) : Vector2Add ⟨0, 0⟩ v = v := by
  simp [Vector2Add]

theorem Vector2Add_comm (v w : Vec2) : Vector2Add v w = Vector2Add w v := by
  simp [Vector2Add]; constructor <;> ring

theorem Vector2Add_assoc (u v w : Vec2) :
    Vector2Add (Vector2Add u v) w = Vector2Add u (Vector2Add v w) := by
  simp [Vector2Add]; constructor <;> ring

theorem vecSum_cons (v : Vec2) (l : List Vec2) :
    vecSum (v :: l) = Vector2Add v (vecSum l) := rfl

theorem vecSum_perm {l1 l2 : List Vec2} (h : l1.Perm l2) :
    vecSum l1 = vecSum l2 := by
  induction h with
  | nil => rfl
  | cons v _ ih => rw [vecSum_cons, vecSum_cons, ih]
  | swap v w l =>
      rw [vecSum_cons, vecSum_cons, vecSum_cons, vecSum_cons,
        ← Vector2Add_assoc, ← Vector2Add_assoc, Vector2Add_comm w v]
  | trans _ _ ih1 ih2 => rw [ih1, ih2]

theorem cTrunc_mono {x y : ℝ} (h : x ≤ y) : cTrunc x ≤ cTrunc y := by
  unfold cTrunc
  split <;> split
  · exact Int.floor_le_floor h
  · rename_i h1 h2
    exact absurd (le_trans h1 h) h2
  · rename_i h1 h2
    calc (⌈x⌉ : ℤ) ≤ ⌈(0 : ℝ)⌉ := Int.ceil_le_ceil (le_of_not_le h1)
    _ = 0 := by norm_num
    _ ≤ ⌊y⌋ := Int.le_floor.mpr (by exact_mod_cast h2)
  · exact Int.ceil_le_ceil h

theorem mem_intRange {a b x : ℤ} : x ∈ intRange a b ↔ a ≤ x ∧ x ≤ b := by
  simp only [intRange, List.mem_map, List.mem_range]
  constructor
  · rintro ⟨k, hk, rfl⟩
    omega
  · rintro ⟨h1, h2⟩
    exact ⟨(x - a).toNat, by omega, by omega⟩

/-- The central loop-to-pointwise lemma: a fold over `List.range n` whose step
at `i` writes only slot `i` and reads only slot `i` acts pointwise. -/
theorem foldl_update_apply {α : Type} (g : ℕ → α → α) (P : ℕ → Bool) (n : ℕ)
    (a : ℕ → α) (j : ℕ) :
    ((List.range n).foldl
        (fun f i => if P i then Function.update f i (g i (f i)) else f) a) j
      = if j < n ∧ P j = true then g j (a j) else a j := by
  induction n with
  | zero => simp
  | succ n ih =>
      rw [List.range_succ, List.foldl_append, List.foldl_cons, List.foldl_nil]
      by_cases hP : P n
      · rw [if_pos hP]
        by_cases hj : j = n
        · subst hj
          rw [Function.update_same, ih]
          rw [if_neg (by simp : ¬ (j < j ∧ P j = true)),
            if_pos ⟨Nat.lt_succ_self j, hP⟩]
        · rw [Function.update_noteq hj, ih]
          by_cases hlt : j < n ∧ P j = true
          · rw [if_pos hlt, if_pos ⟨Nat.lt_succ_of_lt hlt.1, hlt.2⟩]
          · rw [if_neg hlt,
              if_neg (fun h => hlt ⟨by omega, h.2⟩ : ¬ (j < n + 1 ∧ P j = true))]
      · rw [if_neg hP, ih]
        by_cases hlt : j < n ∧ P j = true
        · rw [if_pos hlt, if_pos ⟨Nat.lt_succ_of_lt hlt.1, hlt.2⟩]
        · rw [if_neg hlt]
          by_cases hj : j = n
          · subst hj
            rw [if_neg (by simpa using hP)]
          · rw [if_neg (fun h => hlt ⟨by omega, h.2⟩ : ¬ (j < n + 1 ∧ P j = true))]

/-- Pointwise form of `BoidSeparationSystem`. -/
theorem BoidSeparationSystem_apply (grid : SpatialGrid) (pos vel acc : ℕ → Vec2)
    (ent : ℕ → Bool) (count : ℕ) (params : BoidParams) (j : ℕ) :
    BoidSeparationSystem grid pos vel acc ent count params j
      = if j < count ∧ ent j = true then
          sepBody grid pos vel ent params j (acc j)
        else acc j := by
  rw [BoidSeparationSystem]
  exact foldl_update_apply (sepBody grid pos vel ent params) ent count acc j

/-- Pointwise form of `BoidAlignmentSystem`. -/
theorem BoidAlignmentSystem_apply (grid : SpatialGrid) (pos vel acc : ℕ → Vec2)
    (ent : ℕ → Bool) (count : ℕ) (params : BoidParams) (j : ℕ) :
    BoidAlignmentSystem grid pos vel acc ent count params j
      = if j < count ∧ ent j = true then
          alignBody grid pos vel ent params j (acc j)
        else acc j := by
  rw [BoidAlignmentSystem]
  exact foldl_update_apply (alignBody grid pos vel ent params) ent count acc j

/-- Pointwise form of `BoidCohesionSystem`. -/
theorem BoidCohesionSystem_apply (grid : SpatialGrid) (pos vel acc : ℕ → Vec2)
    (ent : ℕ → Bool) (count : ℕ) (params : BoidParams) (j : ℕ) :
    BoidCohesionSystem grid pos vel acc ent count params j
      = if j < count ∧ ent j = true then
          cohBody grid pos vel ent params j (acc j)
        else acc j := by
  rw [BoidCohesionSystem]
  exact foldl_update_apply (cohBody grid pos vel ent params) ent count acc j

/-- Pointwise form of `AccelerationResetSystem`. -/
theorem AccelerationResetSystem_apply (acc : ℕ → Vec2) (ent : ℕ → Bool)
    (count : ℕ) (j : ℕ) :
    AccelerationResetSystem acc ent count j
      = if j < count ∧ ent j = true then ⟨0, 0⟩ else acc j := by
  rw [AccelerationResetSystem]
  exact foldl_update_apply (fun _ _ => (⟨0, 0⟩ : Vec2)) ent count acc j

/-- Pointwise form of `WrapAroundSystem`. -/
theorem WrapAroundSystem_apply (pos : ℕ → Vec2) (ent : ℕ → Bool) (count : ℕ)
    (width height : ℝ) (j : ℕ) :
    WrapAroundSystem pos ent count width height j
      = if j < count ∧ ent j = true then wrapVec (pos j) width height else pos j := by
  rw [WrapAroundSystem]
  exact foldl_update_apply (fun _ v => wrapVec v width height) ent count pos j

/-- Folding the conditional-append step of `QuerySpatialGrid` over one cell's
id list appends a prefix of that list, up to the `maxResults` bound. -/
theorem condPush_foldl (m : ℕ) (l : List ℕ) (out : List ℕ) :
    l.foldl (fun o e => if o.length < m then o ++ [e] else o) out
      = out ++ l.take (m - out.length) := by
  induction l generalizing out with
  | nil => simp
  | cons e t ih =>
      simp only [List.foldl_cons]
      by_cases h : out.length < m
      · rw [if_pos h, ih]
        have : m - out.length = (m - (out ++ [e]).length) + 1 := by simp; omega
        rw [this, List.take_succ_cons]
        simp
      · rw [if_neg h, ih]
        have h1 : m - out.length = 0 := by omega
        have h2 : m - (out).length = 0 := by omega
        simp [h1]

/-- Folding the conditional append over a list of cells collects a prefix of
the concatenation of those cells. -/
theorem condPush_cells (m : ℕ) (cells : List (List ℕ)) (out : List ℕ) :
    cells.foldl
        (fun o l => l.foldl (fun o e => if o.length < m then o ++ [e] else o) o)
        out
      = out ++ cells.flatten.take (m - out.length) := by
  induction cells generalizing out with
  | nil => simp
  | cons l t ih =>
      simp only [List.foldl_cons]
      rw [condPush_foldl, ih, List.flatten_cons, List.take_append_eq_append_take,
        List.append_assoc]
      congr 2
      simp only [List.length_append, List.length_take]
      congr 1
      omega

/-- The nested y/x/cell folds of `QuerySpatialGrid` are a single fold over the
visited cells' contents. -/
theorem query_nested_fold (grid : SpatialGrid) (maxResults : ℕ) (xs ys : List ℤ) :
    ∀ out : List ℕ,
    ys.foldl (fun out y =>
        xs.foldl (fun out x =>
          (grid (x, y)).foldl (fun out e =>
            if out.length < maxResults then out ++ [e] else out) out) out) out
      = ((ys.flatMap (fun y => xs.map (fun x => (x, y)))).map grid).foldl
          (fun o l => l.foldl (fun o e =>
            if o.length < maxResults then o ++ [e] else o) o) out := by
  induction ys with
  | nil => intro out; rfl
  | cons y t ih =>
      intro out
      rw [List.foldl_cons, List.flatMap_cons, List.map_append, List.foldl_append, ih]
      congr 1
      rw [List.map_map, List.foldl_map]
      rfl

/-- `QuerySpatialGrid` returns exactly the first `maxResults` ids of the
flattened cell contents of the visited rectangle. -/
theorem QuerySpatialGrid_eq_take (grid : SpatialGrid) (pos : Vec2) (radius : ℝ)
    (maxResults : ℕ) :
    QuerySpatialGrid grid pos radius maxResults
      = (queryFlatten grid pos radius).take maxResults := by
  rw [QuerySpatialGrid, queryFlatten, queryCellRange,
    query_nested_fold grid maxResults _ _ [], condPush_cells]
  simp

/-- Every id the query returns sits in some visited cell. -/
theorem mem_queryFlatten_of_mem_query {grid : SpatialGrid} {pos : Vec2}
    {radius : ℝ} {maxResults : ℕ} {e : ℕ}
    (h : e ∈ QuerySpatialGrid grid pos radius maxResults) :
    ∃ c ∈ queryCellRange pos radius, e ∈ grid c := by
  rw [QuerySpatialGrid_eq_take] at h
  have h2 : e ∈ queryFlatten grid pos radius := List.mem_of_mem_take h
  rw [queryFlatten] at h2
  rcases List.mem_flatten.mp h2 with ⟨l, hl, hel⟩
  rcases List.mem_map.mp hl with ⟨c, hc, rfl⟩
  exact ⟨c, hc, hel⟩

/-- What ends up in one cell of the per-tick rebuilt grid: the ids of the
active agents whose clamped cell is that cell, in index order, truncated to
the cell capacity. -/
theorem SpatialGridUpdateSystem_cell (pos : ℕ → Vec2) (ent : ℕ → Bool)
    (count : ℕ) (c : ℤ × ℤ) :
    SpatialGridUpdateSystem pos ent count c
      = ((List.range count).filter
          (fun i => ent i && decide (entityCell (pos i) = c))).take
          MAX_ENTITIES_PER_CELL := by
  rw [SpatialGridUpdateSystem]
  induction (List.range count) using List.reverseRecOn with
  | nil => simp
  | append_singleton l i ih =>
      rw [List.foldl_append, List.foldl_cons, List.foldl_nil, List.filter_append]
      by_cases hent : ent i
      · rw [if_pos hent, AddToSpatialGrid]
        by_cases hc : entityCell (pos i) = c
        · have hfi : List.filter (fun i => ent i && decide (entityCell (pos i) = c)) [i]
              = [i] := by simp [hent, hc]
          rw [hfi]
          by_cases hlen : (l.filter (fun i => ent i && decide (entityCell (pos i) = c))).length
              < MAX_ENTITIES_PER_CELL
          · have hfull : ((l.foldl (fun g i => if ent i = true
                then AddToSpatialGrid g i (pos i) else g) fun _ => [])
                  (entityCell (pos i))).length < MAX_ENTITIES_PER_CELL := by
              rw [hc, ih]
              simp only [List.length_take]
              omega
            rw [if_pos hfull, hc, Function.update_same, ih,
              List.take_of_length_le (by omega),
              List.take_of_length_le (by simp; omega)]
          · have hfull : ¬ ((l.foldl (fun g i => if ent i = true
                then AddToSpatialGrid g i (pos i) else g) fun _ => [])
                  (entityCell (pos i))).length < MAX_ENTITIES_PER_CELL := by
              rw [hc, ih]
              simp only [List.length_take]
              omega
            rw [if_neg hfull, ih, List.take_append_of_le_length (by omega)]
        · have hfi : List.filter (fun i => ent i && decide (entityCell (pos i) = c)) [i]
              = [] := by simp [hc]
          rw [hfi, List.append_nil]
          split
          · rw [Function.update_noteq (Ne.symm hc), ih]
          · exact ih
      · rw [if_neg hent]
        have hfi : List.filter (fun i => ent i && decide (entityCell (pos i) = c)) [i]
            = [] := by simp [hent]
        rw [hfi, List.append_nil]
        exact ih

/-- The one-step unfolding of `PhysicsSystem` at count `n + 1`. -/
theorem PhysicsSystem_succ (pos vel acc : ℕ → Vec2) (ent : ℕ → Bool)
    (n : ℕ) (maxSpeed : ℝ) :
    PhysicsSystem pos vel acc ent (n + 1) maxSpeed
      = (if ent n = true then
          (Function.update (PhysicsSystem pos vel acc ent n maxSpeed).1 n
            (Vector2Add ((PhysicsSystem pos vel acc ent n maxSpeed).1 n)
              (Vector2Limit
                (Vector2Add ((PhysicsSystem pos vel acc ent n maxSpeed).2 n) (acc n))
                maxSpeed)),
           Function.update (PhysicsSystem pos vel acc ent n maxSpeed).2 n
            (Vector2Limit
              (Vector2Add ((PhysicsSystem pos vel acc ent n maxSpeed).2 n) (acc n))
              maxSpeed))
        else PhysicsSystem pos vel acc ent n maxSpeed) := by
  simp only [PhysicsSystem]
  rw [List.range_succ, List.foldl_append, List.foldl_cons, List.foldl_nil]

/-- Pointwise form of `PhysicsSystem`: the velocity of agent `j`. -/
theorem PhysicsSystem_vel_apply (pos vel acc : ℕ → Vec2) (ent : ℕ → Bool)
    (count : ℕ) (maxSpeed : ℝ) (j : ℕ) :
    (PhysicsSystem pos vel acc ent count maxSpeed).2 j
      = if j < count ∧ ent j = true then
          Vector2Limit (Vector2Add (vel j) (acc j)) maxSpeed
        else vel j := by
  induction count generalizing j with
  | zero => simp [PhysicsSystem]
  | succ n ih =>
      rw [PhysicsSystem_succ]
      by_cases hP : ent n
      · rw [if_pos hP]
        dsimp only
        by_cases hj : j = n
        · rw [hj, Function.update_same, ih n, if_neg (by simp),
            if_pos ⟨Nat.lt_succ_self n, hP⟩]
        · rw [Function.update_noteq hj, ih j]
          by_cases hlt : j < n ∧ ent j = true
          · rw [if_pos hlt, if_pos ⟨Nat.lt_succ_of_lt hlt.1, hlt.2⟩]
          · rw [if_neg hlt,
              if_neg (fun h => hlt ⟨by omega, h.2⟩ : ¬ (j < n + 1 ∧ ent j = true))]
      · rw [if_neg hP, ih j]
        by_cases hlt : j < n ∧ ent j = true
        · rw [if_pos hlt, if_pos ⟨Nat.lt_succ_of_lt hlt.1, hlt.2⟩]
        · by_cases hj : j = n
          · rw [if_neg hlt, hj, if_neg (by simp [hP])]
          · rw [if_neg hlt,
              if_neg (fun h => hlt ⟨by omega, h.2⟩ : ¬ (j < n + 1 ∧ ent j = true))]

/-- Pointwise form of `PhysicsSystem`: the position of agent `j`. -/
theorem PhysicsSystem_pos_apply (pos vel acc : ℕ → Vec2) (ent : ℕ → Bool)
    (count : ℕ) (maxSpeed : ℝ) (j : ℕ) :
    (PhysicsSystem pos vel acc ent count maxSpeed).1 j
      = if j < count ∧ ent j = true then
          Vector2Add (pos j) (Vector2Limit (Vector2Add (vel j) (acc j)) maxSpeed)
        else pos j := by
  induction count generalizing j with
  | zero => simp [PhysicsSystem]
  | succ n ih =>
      rw [PhysicsSystem_succ]
      by_cases hP : ent n
      · rw [if_pos hP]
        dsimp only
        by_cases hj : j = n
        · rw [hj, Function.update_same, ih n, if_neg (by simp),
            PhysicsSystem_vel_apply pos vel acc ent n maxSpeed n, if_neg (by simp),
            if_pos ⟨Nat.lt_succ_self n, hP⟩]
        · rw [Function.update_noteq hj, ih j]
          by_cases hlt : j < n ∧ ent j = true
          · rw [if_pos hlt, if_pos ⟨Nat.lt_succ_of_lt hlt.1, hlt.2⟩]
          · rw [if_neg hlt,
              if_neg (fun h => hlt ⟨by omega, h.2⟩ : ¬ (j < n + 1 ∧ ent j = true))]
      · rw [if_neg hP, ih j]
        by_cases hlt : j < n ∧ ent j = true
        · rw [if_pos hlt, if_pos ⟨Nat.lt_succ_of_lt hlt.1, hlt.2⟩]
        · by_cases hj : j = n
          · rw [if_neg hlt, hj, if_neg (by simp [hP])]
          · rw [if_neg hlt,
              if_neg (fun h => hlt ⟨by omega, h.2⟩ : ¬ (j < n + 1 ∧ ent j = true))]

/-! ## Vector magnitude lemmas -/

/-- `Vector2Limit` really does bound the magnitude by `max` (for `0 ≤ max`). -/
theorem Vector2Limit_length_le (v : Vec2) (m : ℝ) (hm : 0 ≤ m) :
    Vector2Length (Vector2Limit v m) ≤ m := by
  simp only [Vector2Limit]
  by_cases h : v.x * v.x + v.y * v.y > m * m
  · rw [if_pos h]
    have hsq : 0 ≤ v.x * v.x + v.y * v.y :=
      add_nonneg (mul_self_nonneg _) (mul_self_nonneg _)
    have hpos : 0 < Real.sqrt (v.x * v.x + v.y * v.y) :=
      Real.sqrt_pos.mpr (lt_of_le_of_lt (mul_self_nonneg m) h)
    have hss : Real.sqrt (v.x * v.x + v.y * v.y) * Real.sqrt (v.x * v.x + v.y * v.y)
        = v.x * v.x + v.y * v.y := Real.mul_self_sqrt hsq
    rw [Vector2Length]
    dsimp only
    have hAne : v.x * v.x + v.y * v.y ≠ 0 := by nlinarith [mul_self_nonneg m]
    have expand : v.x / Real.sqrt (v.x * v.x + v.y * v.y) * m
          * (v.x / Real.sqrt (v.x * v.x + v.y * v.y) * m)
        + v.y / Real.sqrt (v.x * v.x + v.y * v.y) * m
          * (v.y / Real.sqrt (v.x * v.x + v.y * v.y) * m)
        = (v.x * v.x + v.y * v.y) * (m * m)
            / (Real.sqrt (v.x * v.x + v.y * v.y)
                * Real.sqrt (v.x * v.x + v.y * v.y)) := by
      ring
    rw [expand, hss, mul_comm, mul_div_assoc, div_self hAne, mul_one,
      Real.sqrt_mul_self hm]
  · rw [if_neg h]
    push_neg at h
    rw [Vector2Length]
    calc Real.sqrt (v.x * v.x + v.y * v.y) ≤ Real.sqrt (m * m) := Real.sqrt_le_sqrt h
    _ = m := Real.sqrt_mul_self hm

/-! ## Boundary wrap lemmas -/

/-- The x-axis behavior of `wrapVec`: only strictly negative positions wrap to
`width`, and only positions strictly above `width` wrap to `0`. -/
theorem wrapVec_x (p : Vec2) (w h : ℝ) :
    (wrapVec p w h).x = if p.x < 0 then w else if p.x > w then 0 else p.x := by
  simp only [wrapVec]
  split_ifs <;> first | rfl | (exfalso; linarith)

/-- The y-axis behavior of `wrapVec`. -/
theorem wrapVec_y (p : Vec2) (w h : ℝ) :
    (wrapVec p w h).y = if p.y < 0 then h else if p.y > h then 0 else p.y := by
  simp only [wrapVec]
  split_ifs <;> first | rfl | (exfalso; linarith)

/-- After one `wrapVec`, both coordinates lie in the world rectangle. -/
theorem wrapVec_range (p : Vec2) (w h : ℝ) (hw : 0 ≤ w) (hh : 0 ≤ h) :
    (0 ≤ (wrapVec p w h).x ∧ (wrapVec p w h).x ≤ w)
    ∧ (0 ≤ (wrapVec p w h).y ∧ (wrapVec p w h).y ≤ h) := by
  rw [wrapVec_x, wrapVec_y]
  constructor <;> split_ifs <;> constructor <;> linarith

/-- `wrapVec` is idempotent once the world extents are nonnegative. -/
theorem wrapVec_idem (p : Vec2) (w h : ℝ) (hw : 0 ≤ w) (hh : 0 ≤ h) :
    wrapVec (wrapVec p w h) w h = wrapVec p w h := by
  have hr := wrapVec_range p w h hw hh
  ext
  · rw [wrapVec_x, if_neg (not_lt.mpr hr.1.1), if_neg (not_lt.mpr hr.1.2)]
  · rw [wrapVec_y, if_neg (not_lt.mpr hr.2.1), if_neg (not_lt.mpr hr.2.2)]

/-! ## Claim C4: speed clamp after integration -/

/-- C4 (confirmed): after `PhysicsSystem` runs, every active agent's velocity
magnitude is at most `maxSpeed`, for every input state and every nonnegative
`maxSpeed`. -/
theorem physics_speed_clamp (pos vel acc : ℕ → Vec2) (ent : ℕ → Bool)
    (count : ℕ) (maxSpeed : ℝ) (hms : 0 ≤ maxSpeed) (j : ℕ)
    (hj : j < count) (hact : ent j = true) :
    Vector2Length ((PhysicsSystem pos vel acc ent count maxSpeed).2 j) ≤ maxSpeed := by
  rw [PhysicsSystem_vel_apply, if_pos ⟨hj, hact⟩]
  exact Vector2Limit_length_le _ _ hms

/-- Witness for C4: a concrete agent with velocity `(3,4)` and acceleration
`(10,0)` is clamped to speed at most 5. -/
theorem physics_speed_clamp_witness :
    Vector2Length ((PhysicsSystem zeroVel (fun _ => ⟨3, 4⟩) (fun _ => ⟨10, 0⟩)
      allActive 1 5).2 0) ≤ 5 :=
  physics_speed_clamp zeroVel (fun _ => ⟨3, 4⟩) (fun _ => ⟨10, 0⟩) allActive 1 5
    (by norm_num) 0 (by norm_num) rfl

/-! ## Claim C5: boundary wrap -/

/-- C5 (counterexample): the claim says a position axis exactly at `0` is moved
to the opposite world extent by one wrap call.  In the code both comparisons
are strict, so an agent at `(0, 5)` is left exactly where it is, not moved to
`x = 2560`. -/
theorem wrap_boundary_counterexample :
    WrapAroundSystem (fun _ => ⟨0, 5⟩) allActive 1 2560 1440 0 = ⟨0, 5⟩
    ∧ ((0 : ℝ) ≠ 2560) := by
  constructor
  · rw [WrapAroundSystem_apply, if_pos ⟨by norm_num, rfl⟩]
    ext
    · rw [wrapVec_x]
      norm_num
    · rw [wrapVec_y]
      norm_num
  · norm_num

/-- C5 (amended): only a strictly negative axis wraps to the extent and only an
axis strictly above the extent wraps to `0`; an axis exactly at `0` or exactly
at the extent is left unchanged; a second wrap call is a no-op; and each axis
wraps independently (the x result depends only on the x input and the width). -/
theorem wrap_boundary_amended (pos : ℕ → Vec2) (ent : ℕ → Bool) (count : ℕ)
    (width height : ℝ) (hw : 0 ≤ width) (hh : 0 ≤ height) (j : ℕ)
    (hj : j < count) (hact : ent j = true) :
    ((pos j).x = 0 ∨ (pos j).x = width →
      (WrapAroundSystem pos ent count width height j).x = (pos j).x)
    ∧ ((pos j).y = 0 ∨ (pos j).y = height →
      (WrapAroundSystem pos ent count width height j).y = (pos j).y)
    ∧ ((pos j).x < 0 → (WrapAroundSystem pos ent count width height j).x = width)
    ∧ (width < (pos j).x → (WrapAroundSystem pos ent count width height j).x = 0)
    ∧ ((pos j).y < 0 → (WrapAroundSystem pos ent count width height j).y = height)
    ∧ (height < (pos j).y → (WrapAroundSystem pos ent count width height j).y = 0)
    ∧ WrapAroundSystem (WrapAroundSystem pos ent count width height) ent count
        width height j
      = WrapAroundSystem pos ent count width height j
    ∧ (∀ q : ℝ, (wrapVec ⟨(pos j).x, q⟩ width height).x
        = (WrapAroundSystem pos ent count width height j).x) := by
  have happ : WrapAroundSystem pos ent count width height j
      = wrapVec (pos j) width height := by
    rw [WrapAroundSystem_apply, if_pos ⟨hj, hact⟩]
  refine ⟨?_, ?_, ?_, ?_, ?_, ?_, ?_, ?_⟩
  · intro hx
    rw [happ, wrapVec_x]
    rcases hx with hx | hx <;> rw [hx] <;> split_ifs <;> first | rfl | linarith
  · intro hy
    rw [happ, wrapVec_y]
    rcases hy with hy | hy <;> rw [hy] <;> split_ifs <;> first | rfl | linarith
  · intro hx
    rw [happ, wrapVec_x, if_pos hx]
  · intro hx
    rw [happ, wrapVec_x, if_neg (by linarith), if_pos hx]
  · intro hy
    rw [happ, wrapVec_y, if_pos hy]
  · intro hy
    rw [happ, wrapVec_y, if_neg (by linarith), if_pos hy]
  · rw [WrapAroundSystem_apply, if_pos ⟨hj, hact⟩, happ, wrapVec_idem _ _ _ hw hh]
  · intro q
    rw [happ, wrapVec_x, wrapVec_x]

/-- Witness for C5 (amended): an agent at `(-1, 1441)` wraps to `x = 2560`. -/
theorem wrap_boundary_amended_witness :
    (WrapAroundSystem (fun _ => ⟨-1, 1441⟩) allActive 1 2560 1440 0).x = 2560 :=
  (wrap_boundary_amended (fun _ => ⟨-1, 1441⟩) allActive 1 2560 1440
    (by norm_num) (by norm_num) 0 (by norm_num) rfl).2.2.1 (by norm_num)

/-! ## Claim C9: zero-magnitude guards -/

/-- C9 (confirmed): both magnitude-based operations return a zero-length input
vector unchanged, and whenever `Vector2Limit` takes its scaling branch the
magnitude it divides by is strictly positive (`Vector2SetMag` divides only
under its explicit `currentMag > 0` guard), so no division by a zero magnitude
is reachable. -/
theorem vector_mag_zero_guard (v : Vec2) (m : ℝ) :
    ((v.x = 0 ∧ v.y = 0) → Vector2SetMag v m = v ∧ Vector2Limit v m = v)
    ∧ (v.x * v.x + v.y * v.y > m * m →
        0 < Real.sqrt (v.x * v.x + v.y * v.y)) := by
  constructor
  · rintro ⟨hx, hy⟩
    constructor
    · simp only [Vector2SetMag, hx, hy]
      norm_num
    · simp only [Vector2Limit, hx, hy]
      rw [if_neg (by nlinarith [mul_self_nonneg m])]
  · intro hgt
    exact Real.sqrt_pos.mpr (lt_of_le_of_lt (mul_self_nonneg m) hgt)

/-- Witness for C9: the zero vector is invariant under both operations. -/
theorem vector_mag_zero_guard_witness :
    Vector2SetMag ⟨0, 0⟩ 3 = (⟨0, 0⟩ : Vec2) ∧ Vector2Limit ⟨0, 0⟩ 3 = (⟨0, 0⟩ : Vec2) :=
  (vector_mag_zero_guard ⟨0, 0⟩ 3).1 ⟨rfl, rfl⟩

/-! ## Claim C7: agent creation -/

/-- C7 (confirmed): below capacity, `CreateEntity` appends a new active agent
at id `entityCount` with the given position/velocity/color, zero acceleration,
increments the count and leaves every other slot alone; at capacity it returns
`-1` and the whole store (id and all arrays and the count) is unchanged. -/
theorem create_entity_spec (s : GameState) (p v : Vec2) (col : Color) :
    (s.entityCount < MAX_ENTITIES →
      (CreateEntity s p v col).1 = (s.entityCount : ℤ)
      ∧ (CreateEntity s p v col).2.entities s.entityCount = true
      ∧ (CreateEntity s p v col).2.positions s.entityCount = p
      ∧ (CreateEntity s p v col).2.velocities s.entityCount = v
      ∧ (CreateEntity s p v col).2.accelerations s.entityCount = ⟨0, 0⟩
      ∧ (CreateEntity s p v col).2.colors s.entityCount = col
      ∧ (CreateEntity s p v col).2.entityCount = s.entityCount + 1
      ∧ (∀ k, k ≠ s.entityCount →
          (CreateEntity s p v col).2.entities k = s.entities k
          ∧ (CreateEntity s p v col).2.positions k = s.positions k
          ∧ (CreateEntity s p v col).2.velocities k = s.velocities k
          ∧ (CreateEntity s p v col).2.accelerations k = s.accelerations k
          ∧ (CreateEntity s p v col).2.colors k = s.colors k))
    ∧ (MAX_ENTITIES ≤ s.entityCount → CreateEntity s p v col = (-1, s)) := by
  constructor
  · intro h
    rw [CreateEntity, if_neg (not_le.mpr h)]
    refine ⟨rfl, ?_, ?_, ?_, ?_, ?_, rfl, ?_⟩
    · exact Function.update_same _ _ _
    · exact Function.update_same _ _ _
    · exact Function.update_same _ _ _
    · exact Function.update_same _ _ _
    · exact Function.update_same _ _ _
    · intro k hk
      exact ⟨Function.update_noteq hk _ _, Function.update_noteq hk _ _,
        Function.update_noteq hk _ _, Function.update_noteq hk _ _,
        Function.update_noteq hk _ _⟩
  · intro h
    rw [CreateEntity, if_pos h]

/-- Witness for C7: creating into the empty store yields id 0; creating into a
full store is a no-op returning `-1`. -/
theorem create_entity_spec_witness :
    (CreateEntity emptyState ⟨1, 2⟩ ⟨3, 4⟩ ⟨5, 6, 7, 8⟩).1 = 0
    ∧ CreateEntity fullState ⟨1, 2⟩ ⟨3, 4⟩ ⟨5, 6, 7, 8⟩ = (-1, fullState) :=
  ⟨((create_entity_spec emptyState ⟨1, 2⟩ ⟨3, 4⟩ ⟨5, 6, 7, 8⟩).1
      (by norm_num [emptyState, MAX_ENTITIES])).1,
   (create_entity_spec fullState ⟨1, 2⟩ ⟨3, 4⟩ ⟨5, 6, 7, 8⟩).2
      (by norm_num [fullState, MAX_ENTITIES])⟩

/-! ## Concrete grid evaluations (one-agent fixture) -/

/-- The one-agent grid has `[0]` in cell `(2,2)` and nothing anywhere else. -/
theorem oneGrid_cell (c : ℤ × ℤ) : oneGrid c = if (2, 2) = c then [0] else [] := by
  rw [oneGrid, SpatialGridUpdateSystem_cell]
  have h : entityCell (onePos 0) = (2, 2) := by
    norm_num [onePos, entityCell, clampIdx, cTrunc, CELL_SIZE, GRID_WIDTH, GRID_HEIGHT,
      SCREEN_WIDTH, SCREEN_HEIGHT]
  have hrange : List.range 1 = [0] := rfl
  rw [hrange]
  by_cases hc : ((2 : ℤ), (2 : ℤ)) = c
  · subst hc
    simp [List.filter_cons, allActive, h, MAX_ENTITIES_PER_CELL]
  · rw [if_neg hc]
    simp [List.filter_cons, allActive, h, hc, MAX_ENTITIES_PER_CELL]

/-- Querying the one-agent grid from any center whose cell rectangle is
`[1,2] × [1,2]` returns exactly `[0]`. -/
theorem query_oneGrid_eval (p : Vec2) (r : ℝ) (hminx : qMinX p r = 1)
    (hmaxx : qMaxX p r = 2) (hminy : qMinY p r = 1) (hmaxy : qMaxY p r = 2) :
    QuerySpatialGrid oneGrid p r 900 = [0] := by
  rw [QuerySpatialGrid_eq_take, queryFlatten, queryCellRange, hminx, hmaxx,
    hminy, hmaxy]
  have h1 : intRange 1 2 = [1, 2] := rfl
  rw [h1]
  simp [oneGrid_cell]

/-- Querying the one-agent grid at the agent's own position, radius 10. -/
theorem query_oneGrid_10 : QuerySpatialGrid oneGrid ⟨100, 100⟩ 10 900 = [0] := by
  apply query_oneGrid_eval <;>
    norm_num [qMinX, qMaxX, qMinY, qMaxY, cTrunc, CELL_SIZE, GRID_WIDTH, GRID_HEIGHT,
      SCREEN_WIDTH, SCREEN_HEIGHT]

/-! ## Claim C6: zero qualifying neighbors -/

/-- A separation scan over candidates none of which qualifies leaves the
accumulator untouched. -/
theorem sepStep_fold_eq_start (pos : ℕ → Vec2) (ent : ℕ → Bool) (r : ℝ) (i : ℕ)
    (l : List ℕ) (st : Vec2 × ℕ)
    (h : ∀ j ∈ l, i = j ∨ ent j = false
      ∨ ¬ (Vector2Distance (pos i) (pos j) < r ∧ Vector2Distance (pos i) (pos j) > 0)) :
    l.foldl (sepStep pos ent r i) st = st := by
  induction l generalizing st with
  | nil => rfl
  | cons j t ih =>
      rw [List.foldl_cons]
      have hj := h j (List.mem_cons_self j t)
      have hstep : sepStep pos ent r i st j = st := by
        rw [sepStep]
        rcases hj with hj | hj | hj
        · rw [if_pos (Or.inl hj)]
        · rw [if_pos (Or.inr hj)]
        · by_cases hij : i = j ∨ ent j = false
          · rw [if_pos hij]
          · rw [if_neg hij]
            dsimp only
            rw [if_neg hj]
      rw [hstep]
      exact ih st (fun j hj => h j (List.mem_cons_of_mem _ hj))

/-- An alignment scan over candidates none of which qualifies leaves the
accumulator untouched. -/
theorem alignStep_fold_eq_start (pos vel : ℕ → Vec2) (ent : ℕ → Bool) (r : ℝ)
    (i : ℕ) (l : List ℕ) (st : Vec2 × ℕ)
    (h : ∀ j ∈ l, i = j ∨ ent j = false
      ∨ ¬ (Vector2Distance (pos i) (pos j) < r)) :
    l.foldl (alignStep pos vel ent r i) st = st := by
  induction l generalizing st with
  | nil => rfl
  | cons j t ih =>
      rw [List.foldl_cons]
      have hj := h j (List.mem_cons_self j t)
      have hstep : alignStep pos vel ent r i st j = st := by
        rw [alignStep]
        rcases hj with hj | hj | hj
        · rw [if_pos (Or.inl hj)]
        · rw [if_pos (Or.inr hj)]
        · by_cases hij : i = j ∨ ent j = false
          · rw [if_pos hij]
          · rw [if_neg hij]
            dsimp only
            rw [if_neg hj]
      rw [hstep]
      exact ih st (fun j hj => h j (List.mem_cons_of_mem _ hj))

/-- A cohesion scan over candidates none of which qualifies leaves the
accumulator untouched. -/
theorem cohStep_fold_eq_start (pos : ℕ → Vec2) (ent : ℕ → Bool) (r : ℝ)
    (i : ℕ) (l : List ℕ) (st : Vec2 × ℕ)
    (h : ∀ j ∈ l, i = j ∨ ent j = false
      ∨ ¬ (Vector2Distance (pos i) (pos j) < r)) :
    l.foldl (cohStep pos ent r i) st = st := by
  induction l generalizing st with
  | nil => rfl
  | cons j t ih =>
      rw [List.foldl_cons]
      have hj := h j (List.mem_cons_self j t)
      have hstep : cohStep pos ent r i st j = st := by
        rw [cohStep]
        rcases hj with hj | hj | hj
        · rw [if_pos (Or.inl hj)]
        · rw [if_pos (Or.inr hj)]
        · by_cases hij : i = j ∨ ent j = false
          · rw [if_pos hij]
          · rw [if_neg hij]
            dsimp only
            rw [if_neg hj]
      rw [hstep]
      exact ih st (fun j hj => h j (List.mem_cons_of_mem _ hj))

/-- C6 (confirmed): if an active agent has zero qualifying neighbors for a
force system (every query candidate is itself, inactive, or fails that
system's distance test), that system leaves the agent's acceleration exactly
unchanged. -/
theorem zero_neighbors_no_contribution (grid : SpatialGrid)
    (pos vel acc : ℕ → Vec2) (ent : ℕ → Bool) (count : ℕ) (params : BoidParams)
    (i : ℕ) (hi : i < count) (hact : ent i = true) :
    ((∀ j ∈ QuerySpatialGrid grid (pos i) params.separationRadius
          (MAX_ENTITIES_PER_CELL * 9), i = j ∨ ent j = false
        ∨ ¬ (Vector2Distance (pos i) (pos j) < params.separationRadius
              ∧ Vector2Distance (pos i) (pos j) > 0)) →
      BoidSeparationSystem grid pos vel acc ent count params i = acc i)
    ∧ ((∀ j ∈ QuerySpatialGrid grid (pos i) params.perceptionRadius
          (MAX_ENTITIES_PER_CELL * 9), i = j ∨ ent j = false
        ∨ ¬ (Vector2Distance (pos i) (pos j) < params.perceptionRadius)) →
      BoidAlignmentSystem grid pos vel acc ent count params i = acc i)
    ∧ ((∀ j ∈ QuerySpatialGrid grid (pos i) params.perceptionRadius
          (MAX_ENTITIES_PER_CELL * 9), i = j ∨ ent j = false
        ∨ ¬ (Vector2Distance (pos i) (pos j) < params.perceptionRadius)) →
      BoidCohesionSystem grid pos vel acc ent count params i = acc i) := by
  refine ⟨?_, ?_, ?_⟩
  · intro h
    rw [BoidSeparationSystem_apply, if_pos ⟨hi, hact⟩]
    simp only [sepBody]
    rw [sepStep_fold_eq_start pos ent params.separationRadius i _ _ h]
    norm_num
  · intro h
    rw [BoidAlignmentSystem_apply, if_pos ⟨hi, hact⟩]
    simp only [alignBody]
    rw [alignStep_fold_eq_start pos vel ent params.perceptionRadius i _ _ h]
    norm_num
  · intro h
    rw [BoidCohesionSystem_apply, if_pos ⟨hi, hact⟩]
    simp only [cohBody]
    rw [cohStep_fold_eq_start pos ent params.perceptionRadius i _ _ h]
    norm_num

/-- Witness for C6: a lone agent (its only query candidate is itself) gets no
separation contribution. -/
theorem zero_neighbors_no_contribution_witness :
    BoidSeparationSystem oneGrid onePos zeroVel zeroVel allActive 1 boidParams 0
      = zeroVel 0 :=
  (zero_neighbors_no_contribution oneGrid onePos zeroVel zeroVel allActive 1
    boidParams 0 (by norm_num) rfl).1 (by
      have hq : QuerySpatialGrid oneGrid (onePos 0) boidParams.separationRadius
          (MAX_ENTITIES_PER_CELL * 9) = [0] := query_oneGrid_10
      rw [hq]
      intro j hj
      rw [List.mem_singleton] at hj
      exact Or.inl hj.symm)

/-! ## Claim C3: order independence of the force phase -/

/-- Each per-agent body only adds a velocity/position-determined contribution
into the acceleration slot (separation). -/
theorem sepBody_eq_add (grid : SpatialGrid) (pos vel : ℕ → Vec2)
    (ent : ℕ → Bool) (params : BoidParams) (i : ℕ) (v : Vec2) :
    sepBody grid pos vel ent params i v
      = Vector2Add v (sepBody grid pos vel ent params i ⟨0, 0⟩) := by
  simp only [sepBody]
  by_cases h : 0 < ((QuerySpatialGrid grid (pos i) params.separationRadius
      (MAX_ENTITIES_PER_CELL * 9)).foldl
        (sepStep pos ent params.separationRadius i) (⟨0, 0⟩, 0)).2
  · rw [if_pos h, if_pos h, zero_Vector2Add]
  · rw [if_neg h, if_neg h, Vector2Add_zero]

/-- Each per-agent body only adds a contribution (alignment). -/
theorem alignBody_eq_add (grid : SpatialGrid) (pos vel : ℕ → Vec2)
    (ent : ℕ → Bool) (params : BoidParams) (i : ℕ) (v : Vec2) :
    alignBody grid pos vel ent params i v
      = Vector2Add v (alignBody grid pos vel ent params i ⟨0, 0⟩) := by
  simp only [alignBody]
  by_cases h : 0 < ((QuerySpatialGrid grid (pos i) params.perceptionRadius
      (MAX_ENTITIES_PER_CELL * 9)).foldl
        (alignStep pos vel ent params.perceptionRadius i) (⟨0, 0⟩, 0)).2
  · rw [if_pos h, if_pos h, zero_Vector2Add]
  · rw [if_neg h, if_neg h, Vector2Add_zero]

/-- Each per-agent body only adds a contribution (cohesion). -/
theorem cohBody_eq_add (grid : SpatialGrid) (pos vel : ℕ → Vec2)
    (ent : ℕ → Bool) (params : BoidParams) (i : ℕ) (v : Vec2) :
    cohBody grid pos vel ent params i v
      = Vector2Add v (cohBody grid pos vel ent params i ⟨0, 0⟩) := by
  simp only [cohBody]
  by_cases h : 0 < ((QuerySpatialGrid grid (pos i) params.perceptionRadius
      (MAX_ENTITIES_PER_CELL * 9)).foldl
        (cohStep pos ent params.perceptionRadius i) (⟨0, 0⟩, 0)).2
  · rw [if_pos h, if_pos h, zero_Vector2Add]
  · rw [if_neg h, if_neg h, Vector2Add_zero]

/-- Running one force system adds a contribution that does not depend on the
incoming accelerations. -/
theorem runForceSys_apply (grid : SpatialGrid) (pos vel : ℕ → Vec2)
    (ent : ℕ → Bool) (count : ℕ) (params : BoidParams) (t : ForceSys)
    (acc : ℕ → Vec2) (j : ℕ) :
    runForceSys grid pos vel ent count params t acc j
      = Vector2Add (acc j)
          (if j < count ∧ ent j = true
            then sysBodyOf grid pos vel ent params t j ⟨0, 0⟩ else ⟨0, 0⟩) := by
  cases t with
  | sep =>
      simp only [runForceSys, sysBodyOf]
      rw [BoidSeparationSystem_apply]
      by_cases h : j < count ∧ ent j = true
      · rw [if_pos h, if_pos h, sepBody_eq_add]
      · rw [if_neg h, if_neg h, Vector2Add_zero]
  | ali =>
      simp only [runForceSys, sysBodyOf]
      rw [BoidAlignmentSystem_apply]
      by_cases h : j < count ∧ ent j = true
      · rw [if_pos h, if_pos h, alignBody_eq_add]
      · rw [if_neg h, if_neg h, Vector2Add_zero]
  | coh =>
      simp only [runForceSys, sysBodyOf]
      rw [BoidCohesionSystem_apply]
      by_cases h : j < count ∧ ent j = true
      · rw [if_pos h, if_pos h, cohBody_eq_add]
      · rw [if_neg h, if_neg h, Vector2Add_zero]

/-- Running a list of force systems adds the sum of the per-system
contributions, each independent of the accumulated accelerations. -/
theorem runForceList_apply (grid : SpatialGrid) (pos vel : ℕ → Vec2)
    (ent : ℕ → Bool) (count : ℕ) (params : BoidParams) (l : List ForceSys) :
    ∀ (acc : ℕ → Vec2) (j : ℕ),
    runForceList grid pos vel ent count params l acc j
      = Vector2Add (acc j)
          (vecSum (l.map (fun t =>
            if j < count ∧ ent j = true
              then sysBodyOf grid pos vel ent params t j ⟨0, 0⟩ else ⟨0, 0⟩))) := by
  induction l with
  | nil =>
      intro acc j
      simp only [runForceList, List.map_nil, vecSum]
      rw [Vector2Add_zero]
  | cons t ts ih =>
      intro acc j
      simp only [runForceList]
      rw [ih, runForceSys_apply, List.map_cons, vecSum_cons, Vector2Add_assoc]

/-- C3 (confirmed): running the three force systems in any permutation of
(separation, alignment, cohesion) produces exactly the accelerations of the
program order, because each system reads only positions/velocities and adds an
acceleration-independent contribution per agent. -/
theorem force_order_independence (grid : SpatialGrid) (pos vel : ℕ → Vec2)
    (ent : ℕ → Bool) (count : ℕ) (params : BoidParams) (acc : ℕ → Vec2)
    (order : List ForceSys)
    (hperm : order.Perm [ForceSys.sep, ForceSys.ali, ForceSys.coh]) :
    runForceList grid pos vel ent count params order acc
      = forcePhase grid pos vel ent count params acc := by
  have hcanon : forcePhase grid pos vel ent count params acc
      = runForceList grid pos vel ent count params
          [ForceSys.sep, ForceSys.ali, ForceSys.coh] acc := rfl
  rw [hcanon]
  funext j
  rw [runForceList_apply, runForceList_apply]
  congr 1
  exact vecSum_perm (hperm.map _)

/-- Witness for C3: on the concrete two-agent state, the reversed order
cohesion-separation-alignment produces the program-order accelerations. -/
theorem force_order_independence_witness :
    runForceList pairGrid pairPos zeroVel allActive 2 boidParams
      [ForceSys.coh, ForceSys.sep, ForceSys.ali] zeroVel
      = forcePhase pairGrid pairPos zeroVel allActive 2 boidParams zeroVel :=
  force_order_independence pairGrid pairPos zeroVel allActive 2 boidParams
    zeroVel [ForceSys.coh, ForceSys.sep, ForceSys.ali] (by decide)

/-! ## Claim C10: invariants of the rebuilt grid -/

/-- C10 (confirmed): after the per-tick rebuild, every id stored anywhere in
the grid is an active agent with index below the entity count, stored only in
the cell of its clamped position (hence in at most one cell), and consequently
grid queries only ever return active, in-range ids. -/
theorem grid_rebuild_invariant (pos : ℕ → Vec2) (ent : ℕ → Bool) (count : ℕ) :
    (∀ (c : ℤ × ℤ) (id : ℕ), id ∈ SpatialGridUpdateSystem pos ent count c →
      id < count ∧ ent id = true ∧ c = entityCell (pos id))
    ∧ (∀ (c c' : ℤ × ℤ) (id : ℕ), id ∈ SpatialGridUpdateSystem pos ent count c →
        id ∈ SpatialGridUpdateSystem pos ent count c' → c = c')
    ∧ (∀ (p : Vec2) (r : ℝ) (m : ℕ) (e : ℕ),
        e ∈ QuerySpatialGrid (SpatialGridUpdateSystem pos ent count) p r m →
        e < count ∧ ent e = true) := by
  have base : ∀ (c : ℤ × ℤ) (id : ℕ), id ∈ SpatialGridUpdateSystem pos ent count c →
      id < count ∧ ent id = true ∧ c = entityCell (pos id) := by
    intro c id h
    rw [SpatialGridUpdateSystem_cell] at h
    have h2 := List.mem_of_mem_take h
    have h3 := List.mem_filter.mp h2
    have h4 := List.mem_range.mp h3.1
    have h5 := h3.2
    simp only [Bool.and_eq_true, decide_eq_true_eq] at h5
    exact ⟨h4, h5.1, h5.2.symm⟩
  refine ⟨base, ?_, ?_⟩
  · intro c c' id h h'
    rw [(base c id h).2.2, (base c' id h').2.2]
  · intro p r m e he
    rcases mem_queryFlatten_of_mem_query he with ⟨c, _, hc⟩
    exact ⟨(base c e hc).1, (base c e hc).2.1⟩

/-- Witness for C10: in the one-agent grid, the stored id 0 is active, in
range, and filed under the cell of its clamped position. -/
theorem grid_rebuild_invariant_witness :
    (0 : ℕ) < 1 ∧ allActive 0 = true ∧ ((2 : ℤ), (2 : ℤ)) = entityCell (onePos 0) :=
  (grid_rebuild_invariant onePos allActive 1).1 (2, 2) 0 (by
    rw [show SpatialGridUpdateSystem onePos allActive 1 = oneGrid from rfl,
      oneGrid_cell]
    simp)

/-! ## Claim C8: silent drop at cell capacity -/

/-- C8 (confirmed): inserting into a grid cell already holding
`MAX_ENTITIES_PER_CELL` ids leaves the whole grid unchanged (no error is
signalled anywhere), and if the dropped id is stored nowhere it cannot appear
in any query result. -/
theorem cell_capacity_silent_drop (grid : SpatialGrid) (id : ℕ) (pos : Vec2)
    (hfull : (grid (entityCell pos)).length = MAX_ENTITIES_PER_CELL) :
    AddToSpatialGrid grid id pos = grid
    ∧ ((∀ c, id ∉ grid c) →
        ∀ (p : Vec2) (r : ℝ) (m : ℕ),
          id ∉ QuerySpatialGrid (AddToSpatialGrid grid id pos) p r m) := by
  have hEq : AddToSpatialGrid grid id pos = grid := by
    rw [AddToSpatialGrid]
    rw [if_neg (by rw [hfull]; exact lt_irrefl _)]
  refine ⟨hEq, ?_⟩
  intro hnotin p r m hmem
  rw [hEq] at hmem
  rcases mem_queryFlatten_of_mem_query hmem with ⟨c, _, hc⟩
  exact hnotin c hc

/-- Witness for C8: inserting id 5 into a grid whose target cell is full is a
no-op, and id 5 shows up in no query. -/
theorem cell_capacity_silent_drop_witness :
    AddToSpatialGrid fullCellGrid 5 ⟨100, 100⟩ = fullCellGrid
    ∧ (5 : ℕ) ∉ QuerySpatialGrid (AddToSpatialGrid fullCellGrid 5 ⟨100, 100⟩)
        ⟨100, 100⟩ 10 900 := by
  have hcell : entityCell (⟨100, 100⟩ : Vec2) = (2, 2) := by
    norm_num [entityCell, clampIdx, cTrunc, CELL_SIZE, GRID_WIDTH, GRID_HEIGHT,
      SCREEN_WIDTH, SCREEN_HEIGHT]
  have hfull : (fullCellGrid (entityCell ⟨100, 100⟩)).length = MAX_ENTITIES_PER_CELL := by
    rw [hcell]
    simp [fullCellGrid, MAX_ENTITIES_PER_CELL]
  have h := cell_capacity_silent_drop fullCellGrid 5 ⟨100, 100⟩ hfull
  refine ⟨h.1, h.2 ?_ ⟨100, 100⟩ 10 900⟩
  intro c
  by_cases hc : c = ((2 : ℤ), (2 : ℤ))
  · subst hc
    simp [fullCellGrid]
  · simp [fullCellGrid, hc]

/-! ## Claim C1: query superset property -/

/-- The off-world one-agent grid has `[0]` in the clamped cell `(0,0)`. -/
theorem offGrid_cell (c : ℤ × ℤ) : offGrid c = if (0, 0) = c then [0] else [] := by
  rw [offGrid, SpatialGridUpdateSystem_cell]
  have h : entityCell (offPos 0) = (0, 0) := by
    norm_num [offPos, entityCell, clampIdx, cTrunc, CELL_SIZE, GRID_WIDTH, GRID_HEIGHT,
      SCREEN_WIDTH, SCREEN_HEIGHT, Int.ceil_neg]
  have hrange : List.range 1 = [0] := rfl
  rw [hrange]
  by_cases hc : ((0 : ℤ), (0 : ℤ)) = c
  · subst hc
    simp [List.filter_cons, allActive, h, MAX_ENTITIES_PER_CELL]
  · rw [if_neg hc]
    have hc2 : ¬ entityCell (offPos 0) = c := by rw [h]; exact hc
    simp [List.filter_cons, allActive, hc2, MAX_ENTITIES_PER_CELL]

/-- C1 (counterexample): an agent at `(-100, 0)` is stored in the grid (its
cell is clamped to `(0,0)`), a query centered on the agent with radius 5 meets
every precondition of the claim (distance 0, no capacity overflow, empty
result so no buffer exhaustion), yet the query returns nothing: `maxX` is
computed as `-1` and is never clamped up, so the cell loop is empty. -/
theorem query_superset_counterexample :
    Vector2Distance (offPos 0) ⟨-100, 0⟩ ≤ 5
    ∧ (0 : ℕ) ∈ SpatialGridUpdateSystem offPos allActive 1 (entityCell (offPos 0))
    ∧ (queryFlatten (SpatialGridUpdateSystem offPos allActive 1) ⟨-100, 0⟩ 5).length ≤ 900
    ∧ (0 : ℕ) ∉ QuerySpatialGrid (SpatialGridUpdateSystem offPos allActive 1)
        ⟨-100, 0⟩ 5 900 := by
  have hcell : entityCell (offPos 0) = (0, 0) := by
    norm_num [offPos, entityCell, clampIdx, cTrunc, CELL_SIZE, GRID_WIDTH, GRID_HEIGHT,
      SCREEN_WIDTH, SCREEN_HEIGHT, Int.ceil_neg]
  have h1 : qMinX (⟨-100, 0⟩ : Vec2) 5 = 0 := by
    norm_num [qMinX, cTrunc, CELL_SIZE, Int.ceil_neg]
  have h2 : qMaxX (⟨-100, 0⟩ : Vec2) 5 = -1 := by
    norm_num [qMaxX, cTrunc, CELL_SIZE, GRID_WIDTH, SCREEN_WIDTH, Int.ceil_neg]
  have h3 : qMinY (⟨-100, 0⟩ : Vec2) 5 = 0 := by
    norm_num [qMinY, cTrunc, CELL_SIZE, Int.ceil_neg]
  have h4 : qMaxY (⟨-100, 0⟩ : Vec2) 5 = 0 := by
    norm_num [qMaxY, cTrunc, CELL_SIZE, GRID_HEIGHT, SCREEN_HEIGHT, Int.ceil_neg]
  have hflat : queryFlatten (SpatialGridUpdateSystem offPos allActive 1)
      (⟨-100, 0⟩ : Vec2) 5 = [] := by
    rw [queryFlatten, queryCellRange, h1, h2, h3, h4,
      show intRange 0 (-1) = [] from rfl, show intRange 0 0 = [0] from rfl]
    simp
  refine ⟨?_, ?_, ?_, ?_⟩
  · norm_num [offPos, Vector2Distance]
  · show (0 : ℕ) ∈ offGrid (entityCell (offPos 0))
    rw [hcell, offGrid_cell]
    simp
  · rw [hflat]
    norm_num
  · rw [QuerySpatialGrid_eq_take, hflat]
    simp

/-- C1 (amended): the query superset property holds under the additional
hypothesis that the query box reaches the grid on each axis (the unclamped
minimum cell index is at most the last grid index, and the unclamped maximum
cell index is at least 0); without it, a query box entirely off-grid on the
low or high side yields an empty cell loop and misses stored agents.  The
original capacity hypothesis is read as: at most `MAX_ENTITIES_PER_CELL`
active agents map to the queried agent's cell; the buffer hypothesis as: the
visited cells hold at most `maxResults` ids in total. -/
theorem query_superset_amended (pos : ℕ → Vec2) (ent : ℕ → Bool) (count : ℕ)
    (p : Vec2) (r : ℝ) (maxResults : ℕ) (q : ℕ)
    (hq : q < count) (hact : ent q = true)
    (hdist : Vector2Distance (pos q) p ≤ r)
    (hcap : ((List.range count).filter
        (fun i => ent i && decide (entityCell (pos i) = entityCell (pos q)))).length
      ≤ MAX_ENTITIES_PER_CELL)
    (hbuf : (queryFlatten (SpatialGridUpdateSystem pos ent count) p r).length
      ≤ maxResults)
    (hx1 : cTrunc ((p.x - r) / (CELL_SIZE : ℝ)) ≤ GRID_WIDTH - 1)
    (hx2 : 0 ≤ cTrunc ((p.x + r) / (CELL_SIZE : ℝ)))
    (hy1 : cTrunc ((p.y - r) / (CELL_SIZE : ℝ)) ≤ GRID_HEIGHT - 1)
    (hy2 : 0 ≤ cTrunc ((p.y + r) / (CELL_SIZE : ℝ))) :
    q ∈ QuerySpatialGrid (SpatialGridUpdateSystem pos ent count) p r maxResults := by
  have hr0 : 0 ≤ r := le_trans (Real.sqrt_nonneg _) hdist
  have harg : 0 ≤ ((pos q).x - p.x) * ((pos q).x - p.x)
      + ((pos q).y - p.y) * ((pos q).y - p.y) :=
    add_nonneg (mul_self_nonneg _) (mul_self_nonneg _)
  have hsq : ((pos q).x - p.x) * ((pos q).x - p.x)
      + ((pos q).y - p.y) * ((pos q).y - p.y) ≤ r * r := by
    have h2 : Vector2Distance (pos q) p ^ 2 ≤ r ^ 2 :=
      pow_le_pow_left (Real.sqrt_nonneg _) hdist 2
    rw [Vector2Distance, Real.sq_sqrt harg] at h2
    nlinarith [h2]
  have hdx1 : p.x - r ≤ (pos q).x := by
    nlinarith [sq_nonneg ((pos q).x - p.x + r), mul_self_nonneg ((pos q).y - p.y)]
  have hdx2 : (pos q).x ≤ p.x + r := by
    nlinarith [sq_nonneg ((pos q).x - p.x - r), mul_self_nonneg ((pos q).y - p.y)]
  have hdy1 : p.y - r ≤ (pos q).y := by
    nlinarith [sq_nonneg ((pos q).y - p.y + r), mul_self_nonneg ((pos q).x - p.x)]
  have hdy2 : (pos q).y ≤ p.y + r := by
    nlinarith [sq_nonneg ((pos q).y - p.y - r), mul_self_nonneg ((pos q).x - p.x)]
  have hcs : (0 : ℝ) < (CELL_SIZE : ℝ) := by norm_num [CELL_SIZE]
  have hgx1 : cTrunc ((p.x - r) / (CELL_SIZE : ℝ))
      ≤ cTrunc ((pos q).x / (CELL_SIZE : ℝ)) :=
    cTrunc_mono ((div_le_div_right hcs).mpr hdx1)
  have hgx2 : cTrunc ((pos q).x / (CELL_SIZE : ℝ))
      ≤ cTrunc ((p.x + r) / (CELL_SIZE : ℝ)) :=
    cTrunc_mono ((div_le_div_right hcs).mpr hdx2)
  have hgy1 : cTrunc ((p.y - r) / (CELL_SIZE : ℝ))
      ≤ cTrunc ((pos q).y / (CELL_SIZE : ℝ)) :=
    cTrunc_mono ((div_le_div_right hcs).mpr hdy1)
  have hgy2 : cTrunc ((pos q).y / (CELL_SIZE : ℝ))
      ≤ cTrunc ((p.y + r) / (CELL_SIZE : ℝ)) :=
    cTrunc_mono ((div_le_div_right hcs).mpr hdy2)
  have hgw : GRID_WIDTH = 52 := by decide
  have hgh : GRID_HEIGHT = 29 := by decide
  rw [hgw] at hx1
  rw [hgh] at hy1
  have hxbound : qMinX p r ≤ (entityCell (pos q)).1
      ∧ (entityCell (pos q)).1 ≤ qMaxX p r := by
    simp only [qMinX, qMaxX, entityCell, clampIdx, hgw]
    constructor <;> split_ifs <;> omega
  have hybound : qMinY p r ≤ (entityCell (pos q)).2
      ∧ (entityCell (pos q)).2 ≤ qMaxY p r := by
    simp only [qMinY, qMaxY, entityCell, clampIdx, hgh]
    constructor <;> split_ifs <;> omega
  have hmemcell : q ∈ SpatialGridUpdateSystem pos ent count (entityCell (pos q)) := by
    rw [SpatialGridUpdateSystem_cell, List.take_of_length_le hcap]
    exact List.mem_filter.mpr ⟨List.mem_range.mpr hq, by simp [hact]⟩
  have hflat : q ∈ queryFlatten (SpatialGridUpdateSystem pos ent count) p r := by
    rw [queryFlatten]
    apply List.mem_flatten.mpr
    refine ⟨SpatialGridUpdateSystem pos ent count (entityCell (pos q)), ?_, hmemcell⟩
    apply List.mem_map_of_mem
    rw [queryCellRange]
    apply List.mem_flatMap.mpr
    refine ⟨(entityCell (pos q)).2, mem_intRange.mpr ⟨hybound.1, hybound.2⟩, ?_⟩
    apply List.mem_map.mpr
    exact ⟨(entityCell (pos q)).1, mem_intRange.mpr ⟨hxbound.1, hxbound.2⟩, by simp⟩
  rw [QuerySpatialGrid_eq_take, List.take_of_length_le hbuf]
  exact hflat

/-- Witness for C1 (amended): the lone agent at `(100,100)` is found by a
radius-5 query centered on it. -/
theorem query_superset_amended_witness :
    (0 : ℕ) ∈ QuerySpatialGrid (SpatialGridUpdateSystem onePos allActive 1)
      ⟨100, 100⟩ 5 900 := by
  have hminx : qMinX (⟨100, 100⟩ : Vec2) 5 = 1 := by
    norm_num [qMinX, cTrunc, CELL_SIZE]
  have hmaxx : qMaxX (⟨100, 100⟩ : Vec2) 5 = 2 := by
    norm_num [qMaxX, cTrunc, CELL_SIZE, GRID_WIDTH, SCREEN_WIDTH]
  have hminy : qMinY (⟨100, 100⟩ : Vec2) 5 = 1 := by
    norm_num [qMinY, cTrunc, CELL_SIZE]
  have hmaxy : qMaxY (⟨100, 100⟩ : Vec2) 5 = 2 := by
    norm_num [qMaxY, cTrunc, CELL_SIZE, GRID_HEIGHT, SCREEN_HEIGHT]
  apply query_superset_amended onePos allActive 1 ⟨100, 100⟩ 5 900 0
    (by norm_num) rfl
  · norm_num [onePos, Vector2Distance]
  · exact le_trans (List.length_filter_le _ _) (by norm_num [MAX_ENTITIES_PER_CELL])
  · show (queryFlatten oneGrid ⟨100, 100⟩ 5).length ≤ 900
    rw [queryFlatten, queryCellRange, hminx, hmaxx, hminy, hmaxy,
      show intRange 1 2 = [1, 2] from rfl]
    simp [oneGrid_cell]
  · norm_num [cTrunc, CELL_SIZE, GRID_WIDTH, SCREEN_WIDTH]
  · norm_num [cTrunc, CELL_SIZE]
  · norm_num [cTrunc, CELL_SIZE, GRID_HEIGHT, SCREEN_HEIGHT]
  · norm_num [cTrunc, CELL_SIZE]

/-! ## Claim C2: the two-agent separation scenario -/

/-- Square root of 25, used when evaluating `Vector2Limit` on `(±5, 0)`. -/
theorem sqrt_25 : Real.sqrt 25 = 5 := by
  rw [show (25 : ℝ) = 5 ^ 2 by norm_num, Real.sqrt_sq (by norm_num : (0 : ℝ) ≤ 5)]

/-- The two-agent grid has `[0, 1]` in cell `(2,2)` and nothing anywhere else. -/
theorem pairGrid_cell (c : ℤ × ℤ) : pairGrid c = if (2, 2) = c then [0, 1] else [] := by
  rw [pairGrid, SpatialGridUpdateSystem_cell]
  have h0 : entityCell (pairPos 0) = (2, 2) := by
    norm_num [pairPos, entityCell, clampIdx, cTrunc, CELL_SIZE, GRID_WIDTH, GRID_HEIGHT,
      SCREEN_WIDTH, SCREEN_HEIGHT]
  have h1 : entityCell (pairPos 1) = (2, 2) := by
    norm_num [pairPos, entityCell, clampIdx, cTrunc, CELL_SIZE, GRID_WIDTH, GRID_HEIGHT,
      SCREEN_WIDTH, SCREEN_HEIGHT]
  rw [show List.range 2 = [0, 1] from rfl]
  by_cases hc : ((2 : ℤ), (2 : ℤ)) = c
  · subst hc
    simp [List.filter_cons, allActive, h0, h1, MAX_ENTITIES_PER_CELL]
  · rw [if_neg hc]
    have h0n : ¬ entityCell (pairPos 0) = c := by rw [h0]; exact hc
    have h1n : ¬ entityCell (pairPos 1) = c := by rw [h1]; exact hc
    simp [List.filter_cons, allActive, h0n, h1n, MAX_ENTITIES_PER_CELL]

/-- Querying the two-agent grid from any center whose cell rectangle is
`[1,2] × [1,2]` returns `[0, 1]`. -/
theorem query_pairGrid_eval (p : Vec2) (r : ℝ) (hminx : qMinX p r = 1)
    (hmaxx : qMaxX p r = 2) (hminy : qMinY p r = 1) (hmaxy : qMaxY p r = 2) :
    QuerySpatialGrid pairGrid p r 900 = [0, 1] := by
  rw [QuerySpatialGrid_eq_take, queryFlatten, queryCellRange, hminx, hmaxx,
    hminy, hmaxy, show intRange 1 2 = [1, 2] from rfl]
  simp [pairGrid_cell]

/-- The separation query of agent 0 in the two-agent scenario. -/
theorem query_pair_sep0 :
    QuerySpatialGrid pairGrid (pairPos 0) boidParams.separationRadius
      (MAX_ENTITIES_PER_CELL * 9) = [0, 1] := by
  rw [show pairPos 0 = (⟨100, 100⟩ : Vec2) from rfl,
    show boidParams.separationRadius = (10 : ℝ) from rfl,
    show MAX_ENTITIES_PER_CELL * 9 = 900 from rfl]
  apply query_pairGrid_eval <;>
    norm_num [qMinX, qMaxX, qMinY, qMaxY, cTrunc, CELL_SIZE, GRID_WIDTH, GRID_HEIGHT,
      SCREEN_WIDTH, SCREEN_HEIGHT]

/-- The separation query of agent 1 in the two-agent scenario. -/
theorem query_pair_sep1 :
    QuerySpatialGrid pairGrid (pairPos 1) boidParams.separationRadius
      (MAX_ENTITIES_PER_CELL * 9) = [0, 1] := by
  rw [show pairPos 1 = (⟨101, 100⟩ : Vec2) from rfl,
    show boidParams.separationRadius = (10 : ℝ) from rfl,
    show MAX_ENTITIES_PER_CELL * 9 = 900 from rfl]
  apply query_pairGrid_eval <;>
    norm_num [qMinX, qMaxX, qMinY, qMaxY, cTrunc, CELL_SIZE, GRID_WIDTH, GRID_HEIGHT,
      SCREEN_WIDTH, SCREEN_HEIGHT]

/-- The perception query of agent 0 in the two-agent scenario. -/
theorem query_pair_per0 :
    QuerySpatialGrid pairGrid (pairPos 0) boidParams.perceptionRadius
      (MAX_ENTITIES_PER_CELL * 9) = [0, 1] := by
  rw [show pairPos 0 = (⟨100, 100⟩ : Vec2) from rfl,
    show boidParams.perceptionRadius = (20 : ℝ) from rfl,
    show MAX_ENTITIES_PER_CELL * 9 = 900 from rfl]
  apply query_pairGrid_eval <;>
    norm_num [qMinX, qMaxX, qMinY, qMaxY, cTrunc, CELL_SIZE, GRID_WIDTH, GRID_HEIGHT,
      SCREEN_WIDTH, SCREEN_HEIGHT]

/-- The perception query of agent 1 in the two-agent scenario. -/
theorem query_pair_per1 :
    QuerySpatialGrid pairGrid (pairPos 1) boidParams.perceptionRadius
      (MAX_ENTITIES_PER_CELL * 9) = [0, 1] := by
  rw [show pairPos 1 = (⟨101, 100⟩ : Vec2) from rfl,
    show boidParams.perceptionRadius = (20 : ℝ) from rfl,
    show MAX_ENTITIES_PER_CELL * 9 = 900 from rfl]
  apply query_pairGrid_eval <;>
    norm_num [qMinX, qMaxX, qMinY, qMaxY, cTrunc, CELL_SIZE, GRID_WIDTH, GRID_HEIGHT,
      SCREEN_WIDTH, SCREEN_HEIGHT]

/-- The two agents are exactly one unit apart. -/
theorem dist_pair01 : Vector2Distance (pairPos 0) (pairPos 1) = 1 := by
  rw [show pairPos 0 = (⟨100, 100⟩ : Vec2) from rfl,
    show pairPos 1 = (⟨101, 100⟩ : Vec2) from rfl]
  norm_num [Vector2Distance, Real.sqrt_one]

/-- Distance in the other direction. -/
theorem dist_pair10 : Vector2Distance (pairPos 1) (pairPos 0) = 1 := by
  rw [show pairPos 0 = (⟨100, 100⟩ : Vec2) from rfl,
    show pairPos 1 = (⟨101, 100⟩ : Vec2) from rfl]
  norm_num [Vector2Distance, Real.sqrt_one]

/-- The separation scan of agent 0 accumulates the unit vector away from
agent 1. -/
theorem sepFold_pair0 :
    [0, 1].foldl (sepStep pairPos allActive boidParams.separationRadius 0)
      (⟨0, 0⟩, 0) = ((⟨-1, 0⟩ : Vec2), 1) := by
  rw [show boidParams.separationRadius = (10 : ℝ) from rfl]
  simp only [List.foldl_cons, List.foldl_nil]
  rw [show sepStep pairPos allActive 10 0 (⟨0, 0⟩, 0) 0 = (⟨0, 0⟩, 0) from by
    rw [sepStep, if_pos (Or.inl rfl)]]
  rw [sepStep, if_neg (by simp [allActive])]
  dsimp only
  rw [dist_pair01, if_pos (by norm_num)]
  rw [show pairPos 0 = (⟨100, 100⟩ : Vec2) from rfl,
    show pairPos 1 = (⟨101, 100⟩ : Vec2) from rfl]
  norm_num [Vector2Add, Vector2Subtract]

/-- The separation scan of agent 1 accumulates the unit vector away from
agent 0. -/
theorem sepFold_pair1 :
    [0, 1].foldl (sepStep pairPos allActive boidParams.separationRadius 1)
      (⟨0, 0⟩, 0) = ((⟨1, 0⟩ : Vec2), 1) := by
  rw [show boidParams.separationRadius = (10 : ℝ) from rfl]
  simp only [List.foldl_cons, List.foldl_nil]
  have hstep0 : sepStep pairPos allActive 10 1 (⟨0, 0⟩, 0) 0
      = ((⟨1, 0⟩ : Vec2), 1) := by
    rw [sepStep, if_neg (by simp [allActive])]
    dsimp only
    rw [dist_pair10, if_pos (by norm_num)]
    rw [show pairPos 0 = (⟨100, 100⟩ : Vec2) from rfl,
      show pairPos 1 = (⟨101, 100⟩ : Vec2) from rfl]
    norm_num [Vector2Add, Vector2Subtract]
  rw [hstep0, sepStep, if_pos (Or.inl rfl)]

/-- The alignment scan of agent 0: one qualifying neighbor, zero velocity sum. -/
theorem alignFold_pair0 :
    [0, 1].foldl (alignStep pairPos zeroVel allActive boidParams.perceptionRadius 0)
      (⟨0, 0⟩, 0) = ((⟨0, 0⟩ : Vec2), 1) := by
  rw [show boidParams.perceptionRadius = (20 : ℝ) from rfl]
  simp only [List.foldl_cons, List.foldl_nil]
  rw [show alignStep pairPos zeroVel allActive 20 0 (⟨0, 0⟩, 0) 0 = (⟨0, 0⟩, 0) from by
    rw [alignStep, if_pos (Or.inl rfl)]]
  rw [alignStep, if_neg (by simp [allActive])]
  dsimp only
  rw [dist_pair01, if_pos (by norm_num)]
  norm_num [Vector2Add, zeroVel]

/-- The alignment scan of agent 1. -/
theorem alignFold_pair1 :
    [0, 1].foldl (alignStep pairPos zeroVel allActive boidParams.perceptionRadius 1)
      (⟨0, 0⟩, 0) = ((⟨0, 0⟩ : Vec2), 1) := by
  rw [show boidParams.perceptionRadius = (20 : ℝ) from rfl]
  simp only [List.foldl_cons, List.foldl_nil]
  have hstep0 : alignStep pairPos zeroVel allActive 20 1 (⟨0, 0⟩, 0) 0
      = ((⟨0, 0⟩ : Vec2), 1) := by
    rw [alignStep, if_neg (by simp [allActive])]
    dsimp only
    rw [dist_pair10, if_pos (by norm_num)]
    norm_num [Vector2Add, zeroVel]
  rw [hstep0, alignStep, if_pos (Or.inl rfl)]

/-- The cohesion scan of agent 0 accumulates agent 1's position. -/
theorem cohFold_pair0 :
    [0, 1].foldl (cohStep pairPos allActive boidParams.perceptionRadius 0)
      (⟨0, 0⟩, 0) = ((⟨101, 100⟩ : Vec2), 1) := by
  rw [show boidParams.perceptionRadius = (20 : ℝ) from rfl]
  simp only [List.foldl_cons, List.foldl_nil]
  rw [show cohStep pairPos allActive 20 0 (⟨0, 0⟩, 0) 0 = (⟨0, 0⟩, 0) from by
    rw [cohStep, if_pos (Or.inl rfl)]]
  rw [cohStep, if_neg (by simp [allActive])]
  dsimp only
  rw [dist_pair01, if_pos (by norm_num)]
  rw [show pairPos 1 = (⟨101, 100⟩ : Vec2) from rfl]
  norm_num [Vector2Add]

/-- The cohesion scan of agent 1 accumulates agent 0's position. -/
theorem cohFold_pair1 :
    [0, 1].foldl (cohStep pairPos allActive boidParams.perceptionRadius 1)
      (⟨0, 0⟩, 0) = ((⟨100, 100⟩ : Vec2), 1) := by
  rw [show boidParams.perceptionRadius = (20 : ℝ) from rfl]
  simp only [List.foldl_cons, List.foldl_nil]
  have hstep0 : cohStep pairPos allActive 20 1 (⟨0, 0⟩, 0) 0
      = ((⟨100, 100⟩ : Vec2), 1) := by
    rw [cohStep, if_neg (by simp [allActive])]
    dsimp only
    rw [dist_pair10, if_pos (by norm_num)]
    rw [show pairPos 0 = (⟨100, 100⟩ : Vec2) from rfl]
    norm_num [Vector2Add]
  rw [hstep0, cohStep, if_pos (Or.inl rfl)]

/-- Separation contribution of agent 0: magnitude `0.7 * 3 = 2.1`, pointing in
`-x` (away from agent 1). -/
theorem sepBody_pair0 (accI : Vec2) :
    sepBody pairGrid pairPos zeroVel allActive boidParams 0 accI
      = Vector2Add accI ⟨-(21/10), 0⟩ := by
  simp only [sepBody]
  rw [query_pair_sep0, sepFold_pair0]
  norm_num [Vector2SetMag, Vector2Subtract, Vector2Limit, Vector2Add, zeroVel,
    Real.sqrt_one, sqrt_25, boidParams]

/-- Separation contribution of agent 1: mirror image of agent 0's. -/
theorem sepBody_pair1 (accI : Vec2) :
    sepBody pairGrid pairPos zeroVel allActive boidParams 1 accI
      = Vector2Add accI ⟨21/10, 0⟩ := by
  simp only [sepBody]
  rw [query_pair_sep1, sepFold_pair1]
  norm_num [Vector2SetMag, Vector2Subtract, Vector2Limit, Vector2Add, zeroVel,
    Real.sqrt_one, sqrt_25, boidParams]

/-- Alignment contributes nothing in the zero-velocity scenario. -/
theorem alignBody_pair0 (accI : Vec2) :
    alignBody pairGrid pairPos zeroVel allActive boidParams 0 accI = accI := by
  simp only [alignBody]
  rw [query_pair_per0, alignFold_pair0]
  norm_num [Vector2SetMag, Vector2Subtract, Vector2Limit, Vector2Add, zeroVel,
    boidParams]

/-- Alignment contributes nothing for agent 1 either. -/
theorem alignBody_pair1 (accI : Vec2) :
    alignBody pairGrid pairPos zeroVel allActive boidParams 1 accI = accI := by
  simp only [alignBody]
  rw [query_pair_per1, alignFold_pair1]
  norm_num [Vector2SetMag, Vector2Subtract, Vector2Limit, Vector2Add, zeroVel,
    boidParams]

/-- Cohesion contribution of agent 0: magnitude `0.7 * 0.5 = 0.35`, pointing in
`+x` (toward agent 1). -/
theorem cohBody_pair0 (accI : Vec2) :
    cohBody pairGrid pairPos zeroVel allActive boidParams 0 accI
      = Vector2Add accI ⟨7/20, 0⟩ := by
  simp only [cohBody]
  rw [query_pair_per0, cohFold_pair0]
  rw [show pairPos 0 = (⟨100, 100⟩ : Vec2) from rfl]
  norm_num [Vector2SetMag, Vector2Subtract, Vector2Limit, Vector2Add, zeroVel,
    Real.sqrt_one, sqrt_25, boidParams]

/-- Cohesion contribution of agent 1: toward agent 0. -/
theorem cohBody_pair1 (accI : Vec2) :
    cohBody pairGrid pairPos zeroVel allActive boidParams 1 accI
      = Vector2Add accI ⟨-(7/20), 0⟩ := by
  simp only [cohBody]
  rw [query_pair_per1, cohFold_pair1]
  rw [show pairPos 1 = (⟨101, 100⟩ : Vec2) from rfl]
  norm_num [Vector2SetMag, Vector2Subtract, Vector2Limit, Vector2Add, zeroVel,
    Real.sqrt_one, sqrt_25, boidParams]

/-- The acceleration reset leaves the all-zero accelerations all zero. -/
theorem reset_pair : AccelerationResetSystem zeroVel allActive 2 = zeroVel :=
  funext fun j => by
    rw [AccelerationResetSystem_apply]
    split <;> rfl

/-- Full force phase of the two-agent scenario, agent 0. -/
theorem forcePhase_pair0 :
    forcePhase pairGrid pairPos zeroVel allActive 2 boidParams
      (AccelerationResetSystem zeroVel allActive 2) 0 = ⟨-(7/4), 0⟩ := by
  rw [reset_pair, forcePhase, BoidCohesionSystem_apply,
    if_pos ⟨by norm_num, rfl⟩, cohBody_pair0, BoidAlignmentSystem_apply,
    if_pos ⟨by norm_num, rfl⟩, alignBody_pair0, BoidSeparationSystem_apply,
    if_pos ⟨by norm_num, rfl⟩, sepBody_pair0]
  norm_num [Vector2Add, zeroVel]

/-- Full force phase of the two-agent scenario, agent 1. -/
theorem forcePhase_pair1 :
    forcePhase pairGrid pairPos zeroVel allActive 2 boidParams
      (AccelerationResetSystem zeroVel allActive 2) 1 = ⟨7/4, 0⟩ := by
  rw [reset_pair, forcePhase, BoidCohesionSystem_apply,
    if_pos ⟨by norm_num, rfl⟩, cohBody_pair1, BoidAlignmentSystem_apply,
    if_pos ⟨by norm_num, rfl⟩, alignBody_pair1, BoidSeparationSystem_apply,
    if_pos ⟨by norm_num, rfl⟩, sepBody_pair1]
  norm_num [Vector2Add, zeroVel]

/-- C2 (counterexample): in the claimed scenario (two active agents one unit
apart, zero velocity, default parameters) the acceleration after one tick's
force phase has magnitude `1.75`, not `≈ 2.1`: cohesion also fires (distance 1
is inside the perception radius) and pulls `0.35` back toward the neighbor.
The gap `0.35` is far beyond floating-point tolerance. -/
theorem separation_scenario_counterexample :
    forcePhase pairGrid pairPos zeroVel allActive 2 boidParams
      (AccelerationResetSystem zeroVel allActive 2) 0 = ⟨-(7/4), 0⟩
    ∧ Vector2Length ⟨-(7/4), 0⟩ = 7/4
    ∧ (7/4 : ℝ) ≠ 0.7 * 3.0
    ∧ |(7/4 : ℝ) - 0.7 * 3.0| = 0.35 := by
  have hlen : Vector2Length (⟨-(7/4), 0⟩ : Vec2) = 7/4 := by
    rw [Vector2Length]
    dsimp only
    rw [show (-(7/4) : ℝ) * (-(7/4)) + 0 * 0 = (7/4) ^ 2 by norm_num,
      Real.sqrt_sq (by norm_num : (0 : ℝ) ≤ 7/4)]
  refine ⟨forcePhase_pair0, hlen, by norm_num, ?_⟩
  rw [abs_of_nonpos (by norm_num)]
  norm_num

/-- C2 (amended): the clamp really is applied before the weight: the
separation system alone writes a vector of magnitude `0.7 * 3.0 = 2.1`
(exceeding `maxForce = 0.7`) pointing away from the neighbor; but after the
whole tick's force phase the acceleration is `2.1 - 0.35 = 1.75` in magnitude
(cohesion pulls back toward the neighbor), still pointing away on each side. -/
theorem separation_scenario_amended :
    BoidSeparationSystem pairGrid pairPos zeroVel
        (AccelerationResetSystem zeroVel allActive 2) allActive 2 boidParams 0
      = ⟨-(21/10), 0⟩
    ∧ BoidSeparationSystem pairGrid pairPos zeroVel
        (AccelerationResetSystem zeroVel allActive 2) allActive 2 boidParams 1
      = ⟨21/10, 0⟩
    ∧ Vector2Length ⟨-(21/10), 0⟩ = 0.7 * 3.0
    ∧ boidParams.maxForce < 21/10
    ∧ forcePhase pairGrid pairPos zeroVel allActive 2 boidParams
        (AccelerationResetSystem zeroVel allActive 2) 0 = ⟨-(7/4), 0⟩
    ∧ forcePhase pairGrid pairPos zeroVel allActive 2 boidParams
        (AccelerationResetSystem zeroVel allActive 2) 1 = ⟨7/4, 0⟩
    ∧ (pairPos 0).x < (pairPos 1).x
    ∧ (-(7/4) : ℝ) < 0 ∧ (0 : ℝ) < 7/4 := by
  have hsep0 : BoidSeparationSystem pairGrid pairPos zeroVel
      (AccelerationResetSystem zeroVel allActive 2) allActive 2 boidParams 0
      = ⟨-(21/10), 0⟩ := by
    rw [reset_pair, BoidSeparationSystem_apply, if_pos ⟨by norm_num, rfl⟩,
      sepBody_pair0]
    norm_num [Vector2Add, zeroVel]
  have hsep1 : BoidSeparationSystem pairGrid pairPos zeroVel
      (AccelerationResetSystem zeroVel allActive 2) allActive 2 boidParams 1
      = ⟨21/10, 0⟩ := by
    rw [reset_pair, BoidSeparationSystem_apply, if_pos ⟨by norm_num, rfl⟩,
      sepBody_pair1]
    norm_num [Vector2Add, zeroVel]
  have hlen : Vector2Length (⟨-(21/10), 0⟩ : Vec2) = 0.7 * 3.0 := by
    rw [Vector2Length]
    dsimp only
    rw [show (-(21/10) : ℝ) * (-(21/10)) + 0 * 0 = (21/10) ^ 2 by norm_num,
      Real.sqrt_sq (by norm_num : (0 : ℝ) ≤ 21/10)]
    norm_num
  exact ⟨hsep0, hsep1, hlen, by norm_num [boidParams], forcePhase_pair0,
    forcePhase_pair1, by norm_num [pairPos], by norm_num, by norm_num⟩

end Boid
